import Mathlib

/-!
# Verification of `gpt/gpt.go` (chatgpt_wechat_robot)

A shallow embedding of the completion client in `src/gpt/gpt.go`:

* the history store `msgMap` and `addMsg`;
* the request builder `getRequest` with `getUserMsgArray` / `getAssistanMsgArray`;
* the transport `httpRequestCompletions`;
* the retry loop and reply extraction of `Completions`.

Modelling conventions.

* A Go slice `[]Msg` is a `List Msg` holding the elements visible through the slice
  header (indices `0 .. len-1`).  `append` never changes the elements visible through
  another header, and `msgs[1:]` is `List.drop 1`.
* The Go map `msgMap` is a function from keys to `Option`: `none` is an absent key
  (`ok = false` in `msgs, ok := msgMap[uid]`).
* Process state is passed explicitly: every function that reads or writes `msgMap`
  takes the map and, if it writes, returns the new one.
* Effects of `Completions` that are not values (sleeping, invoking the transport,
  handing a request to the network) are recorded in order in a list of `Event`s.
* A Go `error` is represented by its text; `nil` is `none`.
-/

namespace Gpt

/-! ## Data model -/

/-- Go `type Msg struct { Role, Content string }`. -/
structure Msg where
  Role : String
  Content : String
deriving DecidableEq, Repr

/-- The anonymous struct type of the field `Error` of `ChatGPTResponseBody`.  The
`interface{}` fields `Param` and `Code` are kept as the raw JSON text they were
decoded from; no function of the file reads them. -/
structure ErrorDetail where
  Message : String
  Typ : String
  Param : String
  Code : String
deriving DecidableEq, Repr

/-- Go `type ChoiceItem struct`. -/
structure ChoiceItem where
  Text : String
  Index : Int
  Logprobs : Int
  FinishReason : String
  Message : Msg
deriving DecidableEq, Repr

/-- Go `type ChatGPTResponseBody struct`.  `Usage` (a `map[string]interface{}`) is kept
as raw JSON text; no function of the file reads it. -/
structure ChatGPTResponseBody where
  ID : String
  Object : String
  Created : Int
  Model : String
  Choices : List ChoiceItem
  Usage : String
  Error : ErrorDetail
deriving DecidableEq, Repr

/-- A `float64` value, represented by its IEEE-754 bit pattern.  The file only copies
such values from the configuration into the request. -/
abbrev Float64 := Nat

/-- Go `type ChatGPTRequestBody struct`.  `Messages` is `[]` both for the nil slice and
for an empty one; `Prompt` is `""` when it was never assigned. -/
structure ChatGPTRequestBody where
  Model : String
  Messages : List Msg
  Prompt : String
  MaxTokens : Nat
  Temperature : Float64
  TopP : Int
  FrequencyPenalty : Int
  PresencePenalty : Int
deriving DecidableEq, Repr

/-- Modelled from the spec: the type returned by `config.LoadConfig()`, which lives in
the package `config` outside `gpt.go`.  The spec (section 6) lists what it exposes:
`apiKey string`, `model string`, `maxTokens uint`, `temperature float64`; the field
names are the ones `gpt.go` selects. -/
structure Configuration where
  ApiKey : String
  Model : String
  MaxTokens : Nat
  Temperature : Float64
deriving DecidableEq, Repr

/-- Modelled from the spec: the values returned by the calls of `config.LoadConfig()`
made during one call of `Completions`.  `gpt.go` calls it once in `getRequest`
(line 141), once in every `httpRequestCompletions` (line 176, indexed here by the
attempt number) and once before extraction (line 85).  Nothing in `gpt.go` makes these
reads agree, so each has its own value. -/
structure ConfigReads where
  build : Configuration
  send : Nat → Configuration
  extract : Configuration

/-- The configuration that does not change during the call. -/
def ConfigReads.const (cfg : Configuration) : ConfigReads :=
  ⟨cfg, fun _ => cfg, cfg⟩

/-- The observable effects of `Completions` other than its results. -/
inductive Event where
  /-- The call `time.Sleep(ms * time.Millisecond)` (line 68). -/
  | sleep (ms : Nat)
  /-- The call `httpRequestCompletions(request, retry)` (line 70). -/
  | call (retry : Nat)
  /-- Inside `httpRequestCompletions`, control passed the API-key guard: the request of
  attempt `retry` is serialised and posted to `url` (lines 181-221). -/
  | post (url : String) (retry : Nat)
deriving DecidableEq, Repr

/-- Everything `httpRequestCompletions` does after its API-key guard (lines 181-221):
serialise the request, POST it to `url` with the bearer key, read and decode the answer.
The result is either the text of the wrapped error of the failing stage or the decoded
envelope.  It is a parameter: the remote service is outside the program. -/
abbrev Network := String → String → ChatGPTRequestBody → Nat → Except String ChatGPTResponseBody

/-- The process-wide `var msgMap map[string][]Msg`. -/
abbrev MsgMap := String → Option (List Msg)

/-- The initial value `make(map[string][]Msg)`: no key is present. -/
def emptyMsgMap : MsgMap := fun _ => none

/-- Go `msgs, _ := msgMap[uid]`: the stored slice, or the nil slice for an absent key. -/
def lookup (msgMap : MsgMap) (uid : String) : List Msg :=
  match msgMap uid with
  | some msgs => msgs
  | none => []

/-- Go `msgMap[uid] = msgs`. -/
def assign (msgMap : MsgMap) (uid : String) (msgs : List Msg) : MsgMap :=
  fun k => if k = uid then some msgs else msgMap k

/-! ## History store -/

/-- The function `addMsg` (gpt.go lines 124-138). -/
def addMsg (msgMap : MsgMap) (uid : String) (msg : Msg) : MsgMap :=
  let msgs : List Msg :=
    match msgMap uid with
    | some msgs => msgs
    | none => []                       -- make([]Msg, 0, 20)
  let msgs := msgs ++ [msg]            -- append(msgs, msg)
  let msgs := if msgs.length > 20 then msgs.drop 1 else msgs
  assign msgMap uid msgs

/-- Recording a sequence of turns for one user, one `addMsg` call per turn, oldest first. -/
def recordAll (msgMap : MsgMap) (uid : String) (turns : List Msg) : MsgMap :=
  turns.foldl (fun m t => addMsg m uid t) msgMap

/-! ## Request builder -/

/-- The function `getUserMsgArray` (lines 103-112); the log line is dropped. -/
def getUserMsgArray (msgMap : MsgMap) (uid : String) (msg : String) : List Msg × MsgMap :=
  let msgMap := addMsg msgMap uid { Role := "user", Content := msg }
  let msgs := lookup msgMap uid
  (msgs, msgMap)

/-- The function `getAssistanMsgArray` (lines 114-118).  It only reads `msgMap`. -/
def getAssistanMsgArray (msgMap : MsgMap) (uid : String) (msg : String) : List Msg :=
  let msgs := lookup msgMap uid
  msgs ++ [{ Role := "assistant", Content := msg }]

/-- The function `getRequest` (lines 140-173), with the value of `config.LoadConfig()`
as `cfg`.  Returns the request and the map after the call. -/
def getRequest (cfg : Configuration) (msgMap : MsgMap) (uid : String) (msg : String)
    (fromAssistant : Bool) : ChatGPTRequestBody × MsgMap :=
  if cfg.Model = "gpt-3.5-turbo-0301" then
    let (msgs, msgMap) :=
      if fromAssistant then
        (getAssistanMsgArray msgMap uid msg, msgMap)
      else
        getUserMsgArray msgMap uid msg
    ({ Model := cfg.Model
       Messages := msgs
       Prompt := ""
       MaxTokens := cfg.MaxTokens
       Temperature := cfg.Temperature
       TopP := 1
       FrequencyPenalty := 0
       PresencePenalty := 0 }, msgMap)
  else
    ({ Model := cfg.Model
       Messages := []
       Prompt := msg
       MaxTokens := cfg.MaxTokens
       Temperature := cfg.Temperature
       TopP := 1
       FrequencyPenalty := 0
       PresencePenalty := 0 }, msgMap)

/-! ## Transport -/

/-- The function `httpRequestCompletions` (lines 175-222), with the value of
`config.LoadConfig()` as `cfg`.  Returns what the Go function returns (an error, with a
nil envelope, or an envelope, with a nil error) and the events it caused. -/
def httpRequestCompletions (cfg : Configuration) (net : Network)
    (requestBody : ChatGPTRequestBody) (runtimes : Nat) :
    Except String ChatGPTResponseBody × List Event :=
  if cfg.ApiKey = "" then
    (.error "api key required", [])
  else
    let url :=
      if cfg.Model = "gpt-3.5-turbo-0301" then
        "https://api.openai.com/v1/chat/completions"
      else
        "https://api.openai.com/v1/completions"
    (net url cfg.ApiKey requestBody runtimes, [Event.post url runtimes])

/-! ## Retry loop and extraction -/

/-- The variables of `Completions` that the retry loop assigns, and the events so far. -/
structure LoopState where
  gptResponseBody : Option ChatGPTResponseBody
  resErr : Option String
  trace : List Event
deriving DecidableEq, Repr

/-- The loop `for retry := 1; retry <= 3; retry++` of `Completions` (lines 66-78), from
the test `retry <= 3` on.  `send retry` stands for `httpRequestCompletions(request, retry)`. -/
def retryLoop (send : Nat → Except String ChatGPTResponseBody × List Event)
    (retry : Nat) (st : LoopState) : LoopState :=
  if retry ≤ 3 then
    let trace := if retry > 1 then st.trace ++ [Event.sleep ((retry - 1) * 100)] else st.trace
    let trace := trace ++ [Event.call retry] ++ (send retry).2
    match (send retry).1 with
    | .error e =>
      -- resErr != nil: continue
      retryLoop send (retry + 1) ⟨none, some e, trace⟩
    | .ok body =>
      if body.Error.Message = "" then
        -- break
        ⟨some body, none, trace⟩
      else
        retryLoop send (retry + 1) ⟨some body, none, trace⟩
  else
    st
termination_by 4 - retry
decreasing_by all_goals omega

/-- Reply extraction of `Completions` (lines 82-83 and 89-99): the pair `(reply, reason)`. -/
def extract (cfg : Configuration) (gptResponseBody : Option ChatGPTResponseBody) :
    String × String :=
  if cfg.Model = "gpt-3.5-turbo-0301" then
    match gptResponseBody with
    | some body =>
      match body.Choices with
      | c :: _ => (c.Message.Content, c.FinishReason)
      | [] => ("", "")
    | none => ("", "")
  else
    match gptResponseBody with
    | some body =>
      match body.Choices with
      | c :: _ => (c.Text, c.FinishReason)
      | [] => ("", "")
    | none => ("", "")

/-- What a call of `Completions` returns and leaves behind. -/
structure CompletionsResult where
  reply : String
  reason : String
  err : Option String
  msgMap : MsgMap
  trace : List Event

/-- The function `Completions` (lines 62-101).  `cfgs` gives the values of the
`config.LoadConfig()` calls, `net` the behaviour of the remote side, `msgMap` the
history store before the call. -/
def Completions (cfgs : ConfigReads) (net : Network) (msgMap : MsgMap)
    (uid : String) (msg : String) (fromAssistant : Bool) : CompletionsResult :=
  let built := getRequest cfgs.build msgMap uid msg fromAssistant
  let request := built.1
  let msgMap := built.2
  let st := retryLoop (fun retry => httpRequestCompletions (cfgs.send retry) net request retry)
    1 ⟨none, none, []⟩
  match st.resErr with
  | some resErr => ⟨"", "", some resErr, msgMap, st.trace⟩
  | none =>
    let cfg := cfgs.extract
    if cfg.ApiKey = "" then
      ⟨"", "", some "api key required", msgMap, st.trace⟩
    else
      let extracted := extract cfg st.gptResponseBody
      ⟨extracted.1, extracted.2, none, msgMap, st.trace⟩

/-! ## Vocabulary of the statements -/

/-- Every user's stored history has at most 20 turns. -/
def Bounded (msgMap : MsgMap) : Prop :=
  ∀ uid, (lookup msgMap uid).length ≤ 20

/-- The stores that can arise from the initial one by the operations that write
`msgMap`: `addMsg`, and `getRequest` and `Completions`, which reach it. -/
inductive Reachable : MsgMap → Prop where
  | init : Reachable emptyMsgMap
  | addMsg (m : MsgMap) (uid : String) (msg : Msg) :
      Reachable m → Reachable (addMsg m uid msg)
  | getRequest (cfg : Configuration) (m : MsgMap) (uid msg : String) (fromAssistant : Bool) :
      Reachable m → Reachable (getRequest cfg m uid msg fromAssistant).2
  | completions (cfgs : ConfigReads) (net : Network) (m : MsgMap) (uid msg : String)
      (fromAssistant : Bool) :
      Reachable m → Reachable (Completions cfgs net m uid msg fromAssistant).msgMap

/-- Exactly one of `Messages` and `Prompt` of a request is populated (non-empty). -/
def ExactlyOnePopulated (r : ChatGPTRequestBody) : Prop :=
  (r.Messages ≠ [] ∧ r.Prompt = "") ∨ (r.Messages = [] ∧ r.Prompt ≠ "")

instance (r : ChatGPTRequestBody) : Decidable (ExactlyOnePopulated r) := by
  unfold ExactlyOnePopulated; infer_instance

/-- The outcome of attempt `retry` in a call of `Completions`: what
`httpRequestCompletions(request, retry)` returns for the request the call has built. -/
def attempt (cfgs : ConfigReads) (net : Network) (msgMap : MsgMap) (uid msg : String)
    (fromAssistant : Bool) (retry : Nat) : Except String ChatGPTResponseBody :=
  (httpRequestCompletions (cfgs.send retry) net
    (getRequest cfgs.build msgMap uid msg fromAssistant).1 retry).1

/-- The events attempt `retry` causes inside `httpRequestCompletions`. -/
def attemptEvents (cfgs : ConfigReads) (net : Network) (msgMap : MsgMap) (uid msg : String)
    (fromAssistant : Bool) (retry : Nat) : List Event :=
  (httpRequestCompletions (cfgs.send retry) net
    (getRequest cfgs.build msgMap uid msg fromAssistant).1 retry).2

/-- An attempt succeeds when it yields a decoded envelope with empty `Error.Message`. -/
def IsSuccess : Except String ChatGPTResponseBody → Prop
  | .ok body => body.Error.Message = ""
  | .error _ => False

instance (o : Except String ChatGPTResponseBody) : Decidable (IsSuccess o) := by
  cases o <;> unfold IsSuccess <;> infer_instance

/-- The envelope pointer an attempt leaves in `gptResponseBody`: nil after an error. -/
def outcomeBody : Except String ChatGPTResponseBody → Option ChatGPTResponseBody
  | .ok body => some body
  | .error _ => none

/-- The value an attempt leaves in `resErr`: nil after a decoded envelope. -/
def outcomeErr : Except String ChatGPTResponseBody → Option String
  | .ok _ => none
  | .error e => some e

/-- The attempt numbers of the transport invocations in a trace, in order. -/
def calls (trace : List Event) : List Nat :=
  trace.filterMap fun e =>
    match e with
    | Event.call retry => some retry
    | _ => none

/-- The durations in milliseconds of the sleeps in a trace, in order. -/
def sleeps (trace : List Event) : List Nat :=
  trace.filterMap fun e =>
    match e with
    | Event.sleep ms => some ms
    | _ => none

/-- The requests handed to the network in a trace, in order, as (url, attempt number). -/
def posts (trace : List Event) : List (String × Nat) :=
  trace.filterMap fun e =>
    match e with
    | Event.post url retry => some (url, retry)
    | _ => none

/-- The variables of `Completions` when the retry loop is left (line 79). -/
def loopResult (cfgs : ConfigReads) (net : Network) (msgMap : MsgMap) (uid msg : String)
    (fromAssistant : Bool) : LoopState :=
  retryLoop
    (fun retry => httpRequestCompletions (cfgs.send retry) net
      (getRequest cfgs.build msgMap uid msg fromAssistant).1 retry)
    1 ⟨none, none, []⟩

/-- Reply extraction of `Completions` (lines 82-83 and 89-99) once more, with the guard
`gptResponseBody != nil && len(gptResponseBody.Choices) > 0` and the index expression
`gptResponseBody.Choices[0]` kept apart.  The result `none` stands for the run-time
panic of an index out of range. -/
def extractChecked (cfg : Configuration) (gptResponseBody : Option ChatGPTResponseBody) :
    Option (String × String) :=
  if cfg.Model = "gpt-3.5-turbo-0301" then
    match gptResponseBody with
    | some body =>
      if body.Choices.length > 0 then
        match body.Choices[0]? with
        | some c => some (c.Message.Content, c.FinishReason)
        | none => none
      else some ("", "")
    | none => some ("", "")
  else
    match gptResponseBody with
    | some body =>
      if body.Choices.length > 0 then
        match body.Choices[0]? with
        | some c => some (c.Text, c.FinishReason)
        | none => none
      else some ("", "")
    | none => some ("", "")

/-- The sleeps and transport invocations of a trace, in order. -/
def schedule (trace : List Event) : List Event :=
  trace.filter fun e =>
    match e with
    | Event.post _ _ => false
    | _ => true

/-- A value of a member of the JSON object written for a `ChatGPTRequestBody`. -/
inductive JsonValue where
  | string (s : String)
  | number (n : Int)
  | float (bits : Float64)
  /-- An array of objects with the members `role` and `content`. -/
  | messages (msgs : List Msg)
deriving DecidableEq, Repr

/-- Whether a `float64` bit pattern is a finite number: its 11 exponent bits are not
all ones. -/
def float64IsFinite (bits : Float64) : Bool :=
  (bits / 2 ^ 52) % 2048 != 2047

/-- The call `json.Marshal(requestBody)` (line 181) as the struct tags of
`ChatGPTRequestBody` (lines 46-55) direct it: the members of the JSON object in field
order.  A field tagged `omitempty` is left out when it is empty (a slice of length 0,
the string `""`).  The result is `none` when `json.Marshal` returns an error, which it
does for a `Temperature` that is NaN or infinite. -/
def jsonMarshal (r : ChatGPTRequestBody) : Option (List (String × JsonValue)) :=
  if float64IsFinite r.Temperature then
    some ([("model", JsonValue.string r.Model)]
      ++ (if r.Messages.length = 0 then [] else [("messages", JsonValue.messages r.Messages)])
      ++ (if r.Prompt.length = 0 then [] else [("prompt", JsonValue.string r.Prompt)])
      ++ [("max_tokens", JsonValue.number r.MaxTokens),
          ("temperature", JsonValue.float r.Temperature),
          ("top_p", JsonValue.number r.TopP),
          ("frequency_penalty", JsonValue.number r.FrequencyPenalty),
          ("presence_penalty", JsonValue.number r.PresencePenalty)])
  else
    none

/-- The keys of a JSON object. -/
def jsonKeys (obj : List (String × JsonValue)) : List String :=
  obj.map Prod.fst

/-- The stores that can arise from the initial one by calls of `getRequest` and
`Completions`, the only callers of `addMsg` in the program. -/
inductive ReachableByCalls : MsgMap → Prop where
  | init : ReachableByCalls emptyMsgMap
  | getRequest (cfg : Configuration) (m : MsgMap) (uid msg : String) (fromAssistant : Bool) :
      ReachableByCalls m → ReachableByCalls (getRequest cfg m uid msg fromAssistant).2
  | completions (cfgs : ConfigReads) (net : Network) (m : MsgMap) (uid msg : String)
      (fromAssistant : Bool) :
      ReachableByCalls m → ReachableByCalls (Completions cfgs net m uid msg fromAssistant).msgMap

/-- Every stored turn has the role `user`. -/
def OnlyUserTurns (msgMap : MsgMap) : Prop :=
  ∀ uid, ∀ t ∈ lookup msgMap uid, t.Role = "user"

/-! ## Sample values for the concrete instances -/

/-- An envelope with the given `Error.Message` and choices, all other fields zero. -/
def envelopeWith (errMessage : String) (choices : List ChoiceItem) : ChatGPTResponseBody :=
  ⟨"", "", 0, "", choices, "", ⟨errMessage, "", "", ""⟩⟩

/-- A choice as the chat endpoint returns it. -/
def chatChoice (content finishReason : String) : ChoiceItem :=
  ⟨"", 0, 0, finishReason, ⟨"assistant", content⟩⟩

/-- A choice as the legacy completions endpoint returns it. -/
def textChoice (text finishReason : String) : ChoiceItem :=
  ⟨text, 0, 0, finishReason, ⟨"", ""⟩⟩

/-- A remote side that times out on attempt 1, reports a provider error on attempt 2 and
answers on attempt 3. -/
def netThirdTime : Network := fun _ _ _ retry =>
  if retry = 1 then .error "client.Do error: timeout"
  else if retry = 2 then .ok (envelopeWith "rate limit" [])
  else .ok (envelopeWith "" [chatChoice "hello" "stop"])

/-- A remote side that times out on attempt 1 and reports a provider error afterwards. -/
def netErrorThenProvider : Network := fun _ _ _ retry =>
  if retry = 1 then .error "client.Do error: timeout"
  else .ok (envelopeWith "rate limit" [])

/-- A remote side whose every answer carries both an error message and a choice. -/
def netProviderWithChoice : Network := fun _ _ _ _ =>
  .ok (envelopeWith "rate limit" [textChoice "partial" "length"])

/-! ## Lemmas on the history store -/

theorem lookup_assign_same (m : MsgMap) (u : String) (l : List Msg) :
    lookup (assign m u l) u = l := by
  simp [lookup, assign]

theorem lookup_assign_other (m : MsgMap) (u v : String) (l : List Msg) (h : v ≠ u) :
    lookup (assign m u l) v = lookup m v := by
  simp [lookup, assign, h]

/-- What `addMsg` stores for the user it is called for. -/
theorem lookup_addMsg_same (m : MsgMap) (u : String) (t : Msg) :
    lookup (addMsg m u t) u =
      if (lookup m u ++ [t]).length > 20 then (lookup m u ++ [t]).drop 1
      else lookup m u ++ [t] := by
  unfold addMsg
  simp only [lookup_assign_same]
  rfl

/-- The map entry `addMsg` writes: the key is present afterwards. -/
theorem addMsg_same (m : MsgMap) (u : String) (t : Msg) :
    addMsg m u t u = some (lookup (addMsg m u t) u) := by
  simp [addMsg, assign, lookup]

/-- The entries of the other users are not touched by `addMsg`. -/
theorem addMsg_other (m : MsgMap) (u v : String) (t : Msg) (h : v ≠ u) :
    addMsg m u t v = m v := by
  simp [addMsg, assign, h]

theorem lookup_addMsg_other (m : MsgMap) (u v : String) (t : Msg) (h : v ≠ u) :
    lookup (addMsg m u t) v = lookup m v := by
  simp [lookup, addMsg_other m u v t h]

theorem lookup_addMsg_drop (m : MsgMap) (u : String) (t : Msg)
    (h : (lookup m u).length ≤ 20) :
    lookup (addMsg m u t) u = (lookup m u ++ [t]).drop ((lookup m u).length + 1 - 20) := by
  rw [lookup_addMsg_same]
  by_cases hc : (lookup m u ++ [t]).length > 20
  · have : (lookup m u).length = 20 := by simp at hc; omega
    simp [hc, this]
  · have h0 : (lookup m u).length + 1 - 20 = 0 := by simp at hc; omega
    rw [if_neg hc, h0, List.drop_zero]

theorem recordAll_snoc (m : MsgMap) (u : String) (ts : List Msg) (t : Msg) :
    recordAll m u (ts ++ [t]) = addMsg (recordAll m u ts) u t := by
  simp [recordAll, List.foldl_append]

/-- Recording `turns` on top of a history of at most 20 turns keeps the last 20 of the
concatenation. -/
theorem lookup_recordAll (m : MsgMap) (u : String) (h : (lookup m u).length ≤ 20)
    (turns : List Msg) :
    lookup (recordAll m u turns) u
      = (lookup m u ++ turns).drop ((lookup m u).length + turns.length - 20) := by
  induction turns using List.reverseRecOn with
  | nil =>
    have h0 : (lookup m u).length + ([] : List Msg).length - 20 = 0 := by
      simp only [List.length_nil]; omega
    rw [h0]
    simp [recordAll]
  | append_singleton ts t ih =>
    have hlen : (lookup (recordAll m u ts) u).length ≤ 20 := by
      rw [ih]; simp; omega
    rw [recordAll_snoc, lookup_addMsg_drop _ _ _ hlen, ih]
    rw [← List.append_assoc, ← List.drop_append_of_le_length (by simp), List.drop_drop]
    congr 1
    simp
    omega

/-! ## The history store -/

/-- C1 (FIFO eviction law).  Recording the turns `t1..tn` one at a time with `addMsg`
for a user `U` that has no entry leaves for `U` exactly the last `min n 20` of them, in
their original order; for `n = 25` that is 20 turns, namely `t6..t25`. -/
theorem C1_fifo_eviction (msgMap : MsgMap) (U : String) (turns : List Msg)
    (hU : msgMap U = none) :
    lookup (recordAll msgMap U turns) U
        = turns.drop (turns.length - min turns.length 20)
      ∧ (lookup (recordAll msgMap U turns) U).length = min turns.length 20
      ∧ (turns.length = 25 →
          (lookup (recordAll msgMap U turns) U).length = 20
            ∧ lookup (recordAll msgMap U turns) U = turns.drop 5) := by
  have h0 : lookup msgMap U = [] := by simp [lookup, hU]
  have hrec := lookup_recordAll msgMap U (by simp [h0]) turns
  rw [h0] at hrec
  simp only [List.nil_append, List.length_nil, Nat.zero_add] at hrec
  have hidx : turns.length - min turns.length 20 = turns.length - 20 := by omega
  refine ⟨by rw [hrec, hidx], by rw [hrec]; simp; omega, ?_⟩
  intro h25
  rw [hrec, h25]
  refine ⟨by simp; omega, rfl⟩

/-- C1 at a concrete input: 25 turns numbered 1..25 recorded into the empty store. -/
theorem C1_fifo_eviction_witness :
    emptyMsgMap "alice" = none
      ∧ lookup (recordAll emptyMsgMap "alice"
          ((List.range 25).map fun i => ({ Role := "user", Content := toString (i + 1) } : Msg)))
          "alice"
        = (List.range 20).map fun i => ({ Role := "user", Content := toString (i + 6) } : Msg) := by
  refine ⟨rfl, ?_⟩
  have h := (C1_fifo_eviction emptyMsgMap "alice"
    ((List.range 25).map fun i => ({ Role := "user", Content := toString (i + 1) } : Msg))
    rfl).2.2 (by simp)
  rw [h.2]
  decide

/-! ## Lemmas on the request builder -/

theorem getRequest_chat_user (cfg : Configuration) (m : MsgMap) (uid msg : String)
    (hModel : cfg.Model = "gpt-3.5-turbo-0301") :
    getRequest cfg m uid msg false =
      ({ Model := cfg.Model
         Messages := lookup (addMsg m uid { Role := "user", Content := msg }) uid
         Prompt := ""
         MaxTokens := cfg.MaxTokens
         Temperature := cfg.Temperature
         TopP := 1
         FrequencyPenalty := 0
         PresencePenalty := 0 }, addMsg m uid { Role := "user", Content := msg }) := by
  simp [getRequest, hModel, getUserMsgArray]

theorem getRequest_chat_assistant (cfg : Configuration) (m : MsgMap) (uid msg : String)
    (hModel : cfg.Model = "gpt-3.5-turbo-0301") :
    getRequest cfg m uid msg true =
      ({ Model := cfg.Model
         Messages := lookup m uid ++ [{ Role := "assistant", Content := msg }]
         Prompt := ""
         MaxTokens := cfg.MaxTokens
         Temperature := cfg.Temperature
         TopP := 1
         FrequencyPenalty := 0
         PresencePenalty := 0 }, m) := by
  simp [getRequest, hModel, getAssistanMsgArray]

theorem getRequest_legacy (cfg : Configuration) (m : MsgMap) (uid msg : String)
    (fromAssistant : Bool) (hModel : cfg.Model ≠ "gpt-3.5-turbo-0301") :
    getRequest cfg m uid msg fromAssistant =
      ({ Model := cfg.Model
         Messages := []
         Prompt := msg
         MaxTokens := cfg.MaxTokens
         Temperature := cfg.Temperature
         TopP := 1
         FrequencyPenalty := 0
         PresencePenalty := 0 }, m) := by
  simp [getRequest, hModel]

/-- The store after `getRequest`: written only by a user-origin chat-family call. -/
theorem getRequest_store (cfg : Configuration) (m : MsgMap) (uid msg : String)
    (fromAssistant : Bool) :
    (getRequest cfg m uid msg fromAssistant).2 =
      if cfg.Model = "gpt-3.5-turbo-0301" ∧ fromAssistant = false then
        addMsg m uid { Role := "user", Content := msg }
      else m := by
  by_cases hModel : cfg.Model = "gpt-3.5-turbo-0301"
  · cases fromAssistant
    · simp [getRequest_chat_user, hModel]
    · simp [getRequest_chat_assistant, hModel]
  · simp [getRequest_legacy, hModel]

/-- `Completions` touches the store only through its single call of `getRequest`. -/
theorem Completions_store (cfgs : ConfigReads) (net : Network) (m : MsgMap)
    (uid msg : String) (fromAssistant : Bool) :
    (Completions cfgs net m uid msg fromAssistant).msgMap
      = (getRequest cfgs.build m uid msg fromAssistant).2 := by
  unfold Completions
  simp only []
  split
  · rfl
  · split <;> rfl

theorem Bounded_addMsg (m : MsgMap) (uid : String) (msg : Msg) (h : Bounded m) :
    Bounded (addMsg m uid msg) := by
  intro v
  by_cases hv : v = uid
  · subst hv
    rw [lookup_addMsg_drop m v msg (h v)]
    have := h v
    simp
    omega
  · rw [lookup_addMsg_other m uid v msg hv]
    exact h v

theorem Bounded_getRequest (cfg : Configuration) (m : MsgMap) (uid msg : String)
    (fromAssistant : Bool) (h : Bounded m) :
    Bounded (getRequest cfg m uid msg fromAssistant).2 := by
  rw [getRequest_store]
  split
  · exact Bounded_addMsg m uid _ h
  · exact h

/-- C2 (bound invariant).  Each operation that can write the store (`addMsg`,
`getRequest`, `Completions`, for all arguments, configurations and transports) maps a
store in which every history has at most 20 turns to one with the same property; hence
every store reachable from the empty one has it. -/
theorem C2_bound_invariant :
    (∀ (m : MsgMap) (uid : String) (msg : Msg), Bounded m → Bounded (addMsg m uid msg))
    ∧ (∀ (cfg : Configuration) (m : MsgMap) (uid msg : String) (fromAssistant : Bool),
        Bounded m → Bounded (getRequest cfg m uid msg fromAssistant).2)
    ∧ (∀ (cfgs : ConfigReads) (net : Network) (m : MsgMap) (uid msg : String)
          (fromAssistant : Bool),
        Bounded m → Bounded (Completions cfgs net m uid msg fromAssistant).msgMap)
    ∧ (∀ m : MsgMap, Reachable m → Bounded m) := by
  have hC : ∀ (cfgs : ConfigReads) (net : Network) (m : MsgMap) (uid msg : String)
      (fromAssistant : Bool),
      Bounded m → Bounded (Completions cfgs net m uid msg fromAssistant).msgMap := by
    intro cfgs net m uid msg fa h
    rw [Completions_store]
    exact Bounded_getRequest _ m uid msg fa h
  refine ⟨Bounded_addMsg, Bounded_getRequest, hC, ?_⟩
  intro m hm
  induction hm with
  | init => intro v; simp [lookup, emptyMsgMap]
  | addMsg m uid msg _ ih => exact Bounded_addMsg m uid msg ih
  | getRequest cfg m uid msg fa _ ih => exact Bounded_getRequest cfg m uid msg fa ih
  | completions cfgs net m uid msg fa _ ih => exact hC cfgs net m uid msg fa ih

/-! ## The request builder -/

/-- C3 (user-origin chat-family request).  With the chat model configured and
`fromAssistant = false`, the `Messages` of the request are the history stored for `U`
after the call; that history is the old one with the turn `{user, m}` appended and then
the oldest turn dropped if the length exceeds 20; its last element is `{user, m}`. -/
theorem C3_user_origin_chat (cfg : Configuration) (msgMap : MsgMap) (U m : String)
    (hModel : cfg.Model = "gpt-3.5-turbo-0301") :
    (getRequest cfg msgMap U m false).1.Messages
        = lookup (getRequest cfg msgMap U m false).2 U
      ∧ (getRequest cfg msgMap U m false).2 U
        = some (lookup (getRequest cfg msgMap U m false).2 U)
      ∧ lookup (getRequest cfg msgMap U m false).2 U
        = (if (lookup msgMap U ++ [Msg.mk "user" m]).length > 20 then
            (lookup msgMap U ++ [Msg.mk "user" m]).drop 1
          else lookup msgMap U ++ [Msg.mk "user" m])
      ∧ (lookup (getRequest cfg msgMap U m false).2 U).getLast?
        = some (Msg.mk "user" m) := by
  rw [getRequest_chat_user cfg msgMap U m hModel]
  refine ⟨rfl, addMsg_same _ _ _, lookup_addMsg_same _ _ _, ?_⟩
  simp only [lookup_addMsg_same]
  split
  · rename_i hlen
    rw [List.drop_append_of_le_length (by simp at hlen; omega)]
    simp
  · simp

/-- C3 at a full history: the 21st user turn pushes the oldest one out. -/
theorem C3_user_origin_chat_witness :
    (getRequest ⟨"sk-1", "gpt-3.5-turbo-0301", 512, 0⟩
        (assign emptyMsgMap "bob"
          ((List.range 20).map fun i => ({ Role := "user", Content := toString i } : Msg)))
        "bob" "hello" false).1.Messages
      = ((List.range 19).map fun i => ({ Role := "user", Content := toString (i + 1) } : Msg))
          ++ [{ Role := "user", Content := "hello" }] := by
  have h := C3_user_origin_chat ⟨"sk-1", "gpt-3.5-turbo-0301", 512, 0⟩
    (assign emptyMsgMap "bob"
      ((List.range 20).map fun i => ({ Role := "user", Content := toString i } : Msg)))
    "bob" "hello" rfl
  rw [h.1, h.2.2.1, lookup_assign_same]
  rfl

/-- C4 (assistant-origin chat-family request).  With the chat model configured and
`fromAssistant = true`, the `Messages` of the request are the history stored for `U`
(empty for an unknown user) followed by the turn `{assistant, m}`, and the store after
the call is the store before it. -/
theorem C4_assistant_origin_chat (cfg : Configuration) (msgMap : MsgMap) (U m : String)
    (hModel : cfg.Model = "gpt-3.5-turbo-0301") :
    (getRequest cfg msgMap U m true).1.Messages
        = lookup msgMap U ++ [Msg.mk "assistant" m]
      ∧ (msgMap U = none →
          (getRequest cfg msgMap U m true).1.Messages = [Msg.mk "assistant" m])
      ∧ (getRequest cfg msgMap U m true).2 = msgMap := by
  rw [getRequest_chat_assistant cfg msgMap U m hModel]
  refine ⟨rfl, ?_, rfl⟩
  intro hU
  simp [lookup, hU]

/-- C4 for a user with one stored turn. -/
theorem C4_assistant_origin_chat_witness :
    (getRequest ⟨"sk-1", "gpt-3.5-turbo-0301", 512, 0⟩
        (assign emptyMsgMap "bob" [{ Role := "user", Content := "hi" }])
        "bob" "hello, bob" true).1.Messages
      = [{ Role := "user", Content := "hi" }, { Role := "assistant", Content := "hello, bob" }]
    ∧ (getRequest ⟨"sk-1", "gpt-3.5-turbo-0301", 512, 0⟩
        (assign emptyMsgMap "bob" [{ Role := "user", Content := "hi" }])
        "bob" "hello, bob" true).2
      = assign emptyMsgMap "bob" [{ Role := "user", Content := "hi" }] := by
  have h := C4_assistant_origin_chat ⟨"sk-1", "gpt-3.5-turbo-0301", 512, 0⟩
    (assign emptyMsgMap "bob" [{ Role := "user", Content := "hi" }]) "bob" "hello, bob" rfl
  refine ⟨?_, h.2.2⟩
  rw [h.1, lookup_assign_same]
  rfl

/-- C5 (legacy-family request).  With any model other than the chat model, for either
value of `fromAssistant`, the request has empty `Messages` and `Prompt = m`, it is the
same request whatever the store (and the user id) is, and the store is unchanged. -/
theorem C5_legacy_request (cfg : Configuration) (msgMap : MsgMap) (uid m : String)
    (fromAssistant : Bool) (hModel : cfg.Model ≠ "gpt-3.5-turbo-0301") :
    (getRequest cfg msgMap uid m fromAssistant).1.Messages = []
      ∧ (getRequest cfg msgMap uid m fromAssistant).1.Prompt = m
      ∧ (∀ (msgMap2 : MsgMap) (uid2 : String),
          (getRequest cfg msgMap2 uid2 m fromAssistant).1
            = (getRequest cfg msgMap uid m fromAssistant).1)
      ∧ (getRequest cfg msgMap uid m fromAssistant).2 = msgMap := by
  refine ⟨?_, ?_, ?_, ?_⟩
  · rw [getRequest_legacy cfg msgMap uid m fromAssistant hModel]
  · rw [getRequest_legacy cfg msgMap uid m fromAssistant hModel]
  · intro msgMap2 uid2
    rw [getRequest_legacy cfg msgMap uid m fromAssistant hModel,
      getRequest_legacy cfg msgMap2 uid2 m fromAssistant hModel]
  · rw [getRequest_legacy cfg msgMap uid m fromAssistant hModel]

/-- C5 with the model `text-davinci-003` and a user that has a stored history. -/
theorem C5_legacy_request_witness :
    (getRequest ⟨"sk-1", "text-davinci-003", 512, 0⟩
        (assign emptyMsgMap "bob" [{ Role := "user", Content := "hi" }])
        "bob" "give me good song" false).1.Messages = []
    ∧ (getRequest ⟨"sk-1", "text-davinci-003", 512, 0⟩
        (assign emptyMsgMap "bob" [{ Role := "user", Content := "hi" }])
        "bob" "give me good song" false).1.Prompt = "give me good song" :=
  have h := C5_legacy_request ⟨"sk-1", "text-davinci-003", 512, 0⟩
    (assign emptyMsgMap "bob" [{ Role := "user", Content := "hi" }])
    "bob" "give me good song" false (by decide)
  ⟨h.1, h.2.1⟩

/-- C6 fails as stated: with a legacy model and the empty message neither `Messages`
nor `Prompt` of the request is populated. -/
theorem C6_counterexample :
    ¬ ExactlyOnePopulated
        (getRequest ⟨"sk-1", "text-davinci-003", 512, 0⟩ emptyMsgMap "bob" "" false).1 := by
  decide

/-- C6, amended.  `Messages` and `Prompt` of a request built by `getRequest` are never
both populated, and exactly one of them is populated if and only if the model is the
chat model or the message is not the empty string. -/
theorem C6_one_populated (cfg : Configuration) (msgMap : MsgMap) (uid m : String)
    (fromAssistant : Bool) :
    ¬ ((getRequest cfg msgMap uid m fromAssistant).1.Messages ≠ []
        ∧ (getRequest cfg msgMap uid m fromAssistant).1.Prompt ≠ "")
      ∧ (ExactlyOnePopulated (getRequest cfg msgMap uid m fromAssistant).1
          ↔ (cfg.Model = "gpt-3.5-turbo-0301" ∨ m ≠ "")) := by
  by_cases hModel : cfg.Model = "gpt-3.5-turbo-0301"
  · cases fromAssistant
    · rw [getRequest_chat_user cfg msgMap uid m hModel]
      have hne : lookup (addMsg msgMap uid (Msg.mk "user" m)) uid ≠ [] := by
        rw [lookup_addMsg_same]
        split
        · rename_i hlen
          intro h
          have hl := congrArg List.length h
          rw [List.length_drop, List.length_append] at hl
          simp only [List.length_append, List.length_singleton, List.length_nil] at hl hlen
          omega
        · simp
      simp [ExactlyOnePopulated, hModel, hne]
    · rw [getRequest_chat_assistant cfg msgMap uid m hModel]
      simp [ExactlyOnePopulated, hModel]
  · rw [getRequest_legacy cfg msgMap uid m fromAssistant hModel]
    simp [ExactlyOnePopulated, hModel]

/-! ## Lemmas on the retry loop -/

theorem retryLoop_exit (send : Nat → Except String ChatGPTResponseBody × List Event)
    (retry : Nat) (st : LoopState) (h : 3 < retry) :
    retryLoop send retry st = st := by
  rw [retryLoop, if_neg (by omega)]

/-- One iteration of the loop. -/
theorem retryLoop_step (send : Nat → Except String ChatGPTResponseBody × List Event)
    (retry : Nat) (st : LoopState) (h : retry ≤ 3) :
    retryLoop send retry st =
      if IsSuccess (send retry).1 then
        ⟨outcomeBody (send retry).1, none,
          (if retry > 1 then st.trace ++ [Event.sleep ((retry - 1) * 100)] else st.trace)
            ++ [Event.call retry] ++ (send retry).2⟩
      else
        retryLoop send (retry + 1)
          ⟨outcomeBody (send retry).1, outcomeErr (send retry).1,
            (if retry > 1 then st.trace ++ [Event.sleep ((retry - 1) * 100)] else st.trace)
              ++ [Event.call retry] ++ (send retry).2⟩ := by
  rw [retryLoop, if_pos h]
  cases hs : (send retry).1 with
  | error e => simp [IsSuccess, outcomeBody, outcomeErr]
  | ok body =>
    by_cases hm : body.Error.Message = "" <;> simp [IsSuccess, outcomeBody, outcomeErr, hm]

/-- The loop of `Completions`, unrolled: it stops after the first successful attempt
and after attempt 3 in any case. -/
theorem retryLoop_unroll (send : Nat → Except String ChatGPTResponseBody × List Event) :
    retryLoop send 1 ⟨none, none, []⟩ =
      if IsSuccess (send 1).1 then
        ⟨outcomeBody (send 1).1, none, [Event.call 1] ++ (send 1).2⟩
      else if IsSuccess (send 2).1 then
        ⟨outcomeBody (send 2).1, none,
          [Event.call 1] ++ (send 1).2 ++ [Event.sleep 100, Event.call 2] ++ (send 2).2⟩
      else
        ⟨outcomeBody (send 3).1, outcomeErr (send 3).1,
          [Event.call 1] ++ (send 1).2 ++ [Event.sleep 100, Event.call 2] ++ (send 2).2
            ++ [Event.sleep 200, Event.call 3] ++ (send 3).2⟩ := by
  rw [retryLoop_step send 1 _ (by decide)]
  split
  · simp
  · rw [retryLoop_step send 2 _ (by decide)]
    split
    · simp
    · rw [retryLoop_step send 3 _ (by decide)]
      split
      · rename_i h3
        cases hs : (send 3).1 with
        | error e => simp [hs, IsSuccess] at h3
        | ok body => simp [outcomeBody, outcomeErr]
      · rw [retryLoop_exit send 4 _ (by decide)]
        simp

/-! ## Lemmas on the transport -/

theorem httpRequestCompletions_no_key (cfg : Configuration) (net : Network)
    (requestBody : ChatGPTRequestBody) (runtimes : Nat) (hKey : cfg.ApiKey = "") :
    httpRequestCompletions cfg net requestBody runtimes = (.error "api key required", []) := by
  simp [httpRequestCompletions, hKey]

/-- With a key, the outcome of the transport is whatever the remote side gives. -/
theorem httpRequestCompletions_key (cfg : Configuration) (net : Network)
    (requestBody : ChatGPTRequestBody) (runtimes : Nat) (hKey : cfg.ApiKey ≠ "") :
    (httpRequestCompletions cfg net requestBody runtimes).1
      = net (if cfg.Model = "gpt-3.5-turbo-0301" then
              "https://api.openai.com/v1/chat/completions"
            else "https://api.openai.com/v1/completions")
          cfg.ApiKey requestBody runtimes := by
  simp [httpRequestCompletions, hKey]

/-- An envelope can only come from a transport that has read a non-empty key. -/
theorem httpRequestCompletions_ok_key (cfg : Configuration) (net : Network)
    (requestBody : ChatGPTRequestBody) (runtimes : Nat) (env : ChatGPTResponseBody)
    (h : (httpRequestCompletions cfg net requestBody runtimes).1 = .ok env) :
    cfg.ApiKey ≠ "" := by
  intro hKey
  rw [httpRequestCompletions_no_key cfg net requestBody runtimes hKey] at h
  cases h

theorem calls_httpRequestCompletions (cfg : Configuration) (net : Network)
    (requestBody : ChatGPTRequestBody) (runtimes : Nat) :
    calls (httpRequestCompletions cfg net requestBody runtimes).2 = [] := by
  unfold httpRequestCompletions
  split <;> simp [calls]

theorem sleeps_httpRequestCompletions (cfg : Configuration) (net : Network)
    (requestBody : ChatGPTRequestBody) (runtimes : Nat) :
    sleeps (httpRequestCompletions cfg net requestBody runtimes).2 = [] := by
  unfold httpRequestCompletions
  split <;> simp [sleeps]

theorem calls_nil : calls [] = [] := rfl

theorem calls_cons_call (retry : Nat) (t : List Event) :
    calls (Event.call retry :: t) = retry :: calls t := by
  simp [calls]

theorem calls_cons_sleep (ms : Nat) (t : List Event) :
    calls (Event.sleep ms :: t) = calls t := by
  simp [calls]

theorem calls_append (a b : List Event) : calls (a ++ b) = calls a ++ calls b := by
  simp [calls]

theorem sleeps_append (a b : List Event) : sleeps (a ++ b) = sleeps a ++ sleeps b := by
  simp [sleeps]

theorem posts_append (a b : List Event) : posts (a ++ b) = posts a ++ posts b := by
  simp [posts]

theorem IsSuccess_ok (o : Except String ChatGPTResponseBody) (h : IsSuccess o) :
    ∃ env, o = .ok env ∧ env.Error.Message = "" := by
  cases o with
  | error e => exact absurd h (by simp [IsSuccess])
  | ok env => exact ⟨env, rfl, h⟩

/-- With one configuration throughout the call, an attempt that yields an envelope
shows that the key is not empty. -/
theorem attempt_ok_key (cfg : Configuration) (net : Network) (msgMap : MsgMap)
    (uid msg : String) (fromAssistant : Bool) (retry : Nat) (env : ChatGPTResponseBody)
    (h : attempt (ConfigReads.const cfg) net msgMap uid msg fromAssistant retry = .ok env) :
    cfg.ApiKey ≠ "" :=
  httpRequestCompletions_ok_key cfg net _ retry env h

theorem calls_attemptEvents (cfgs : ConfigReads) (net : Network) (msgMap : MsgMap)
    (uid msg : String) (fromAssistant : Bool) (retry : Nat) :
    calls (attemptEvents cfgs net msgMap uid msg fromAssistant retry) = [] :=
  calls_httpRequestCompletions _ _ _ _

theorem sleeps_attemptEvents (cfgs : ConfigReads) (net : Network) (msgMap : MsgMap)
    (uid msg : String) (fromAssistant : Bool) (retry : Nat) :
    sleeps (attemptEvents cfgs net msgMap uid msg fromAssistant retry) = [] :=
  sleeps_httpRequestCompletions _ _ _ _

/-- The result of `Completions` under one configuration, by the outcomes of the
attempts: the first successful attempt among 1 and 2 ends the loop, otherwise attempt 3
decides. -/
theorem Completions_const (cfg : Configuration) (net : Network) (msgMap : MsgMap)
    (uid msg : String) (fromAssistant : Bool) :
    Completions (ConfigReads.const cfg) net msgMap uid msg fromAssistant =
      if IsSuccess (attempt (ConfigReads.const cfg) net msgMap uid msg fromAssistant 1) then
        ⟨(extract cfg (outcomeBody
            (attempt (ConfigReads.const cfg) net msgMap uid msg fromAssistant 1))).1,
          (extract cfg (outcomeBody
            (attempt (ConfigReads.const cfg) net msgMap uid msg fromAssistant 1))).2,
          none, (getRequest cfg msgMap uid msg fromAssistant).2,
          [Event.call 1]
            ++ attemptEvents (ConfigReads.const cfg) net msgMap uid msg fromAssistant 1⟩
      else if IsSuccess (attempt (ConfigReads.const cfg) net msgMap uid msg fromAssistant 2) then
        ⟨(extract cfg (outcomeBody
            (attempt (ConfigReads.const cfg) net msgMap uid msg fromAssistant 2))).1,
          (extract cfg (outcomeBody
            (attempt (ConfigReads.const cfg) net msgMap uid msg fromAssistant 2))).2,
          none, (getRequest cfg msgMap uid msg fromAssistant).2,
          [Event.call 1]
            ++ attemptEvents (ConfigReads.const cfg) net msgMap uid msg fromAssistant 1
            ++ [Event.sleep 100, Event.call 2]
            ++ attemptEvents (ConfigReads.const cfg) net msgMap uid msg fromAssistant 2⟩
      else
        match attempt (ConfigReads.const cfg) net msgMap uid msg fromAssistant 3 with
        | .error e =>
          ⟨"", "", some e, (getRequest cfg msgMap uid msg fromAssistant).2,
            [Event.call 1]
              ++ attemptEvents (ConfigReads.const cfg) net msgMap uid msg fromAssistant 1
              ++ [Event.sleep 100, Event.call 2]
              ++ attemptEvents (ConfigReads.const cfg) net msgMap uid msg fromAssistant 2
              ++ [Event.sleep 200, Event.call 3]
              ++ attemptEvents (ConfigReads.const cfg) net msgMap uid msg fromAssistant 3⟩
        | .ok env =>
          ⟨(extract cfg (some env)).1, (extract cfg (some env)).2, none,
            (getRequest cfg msgMap uid msg fromAssistant).2,
            [Event.call 1]
              ++ attemptEvents (ConfigReads.const cfg) net msgMap uid msg fromAssistant 1
              ++ [Event.sleep 100, Event.call 2]
              ++ attemptEvents (ConfigReads.const cfg) net msgMap uid msg fromAssistant 2
              ++ [Event.sleep 200, Event.call 3]
              ++ attemptEvents (ConfigReads.const cfg) net msgMap uid msg fromAssistant 3⟩ := by
  have hk : ∀ (i : Nat) (env : ChatGPTResponseBody),
      (httpRequestCompletions cfg net (getRequest cfg msgMap uid msg fromAssistant).1 i).1
        = .ok env → cfg.ApiKey ≠ "" :=
    fun i env h => httpRequestCompletions_ok_key cfg net _ i env h
  unfold Completions attempt attemptEvents
  simp only [ConfigReads.const]
  rw [retryLoop_unroll]
  generalize httpRequestCompletions cfg net (getRequest cfg msgMap uid msg fromAssistant).1
    = send at hk
  by_cases h1 : IsSuccess (send 1).1
  · obtain ⟨env, he, _⟩ := IsSuccess_ok _ h1
    simp [h1, hk 1 env he]
  · by_cases h2 : IsSuccess (send 2).1
    · obtain ⟨env, he, _⟩ := IsSuccess_ok _ h2
      simp [h1, h2, hk 2 env he]
    · cases h3 : (send 3).1 with
      | error e => simp [h1, h2, h3, outcomeErr]
      | ok env => simp [h1, h2, h3, outcomeErr, outcomeBody, hk 3 env h3]

/-! ## The retry orchestrator -/

/-- C7 fails as stated: with an empty API key, the chat model and a user-origin
message, `Completions` returns the error but has recorded the message in the store. -/
theorem C7_counterexample :
    (Completions (ConfigReads.const ⟨"", "gpt-3.5-turbo-0301", 512, 0⟩)
        (fun _ _ _ _ => .error "client.Do error: no route") emptyMsgMap "bob" "hi" false).err
      = some "api key required"
    ∧ emptyMsgMap "bob" = none
    ∧ (Completions (ConfigReads.const ⟨"", "gpt-3.5-turbo-0301", 512, 0⟩)
        (fun _ _ _ _ => .error "client.Do error: no route") emptyMsgMap "bob" "hi" false).msgMap
          "bob"
      = some [Msg.mk "user" "hi"] := by
  refine ⟨?_, rfl, ?_⟩
  · unfold Completions
    simp only []
    rw [retryLoop_unroll]
    simp [ConfigReads.const, httpRequestCompletions, IsSuccess, outcomeErr]
  · rw [Completions_store]
    decide

/-- C7, amended.  With an empty API key (whatever the model, the store, the user, the
message and the origin), `Completions` returns `("", "", "api key required")` and hands
nothing to the network; the store it leaves is the one `getRequest` builds: the store
before the call when the model is a legacy one or `fromAssistant` is true, and the store
before the call with `{user, msg}` recorded by `addMsg` when the model is the chat model
and `fromAssistant` is false. -/
theorem C7_missing_api_key (cfg : Configuration) (net : Network) (msgMap : MsgMap)
    (uid msg : String) (fromAssistant : Bool) (hKey : cfg.ApiKey = "") :
    (Completions (ConfigReads.const cfg) net msgMap uid msg fromAssistant).err
        = some "api key required"
      ∧ (Completions (ConfigReads.const cfg) net msgMap uid msg fromAssistant).reply = ""
      ∧ (Completions (ConfigReads.const cfg) net msgMap uid msg fromAssistant).reason = ""
      ∧ posts (Completions (ConfigReads.const cfg) net msgMap uid msg fromAssistant).trace = []
      ∧ (Completions (ConfigReads.const cfg) net msgMap uid msg fromAssistant).msgMap
        = (getRequest cfg msgMap uid msg fromAssistant).2
      ∧ (cfg.Model ≠ "gpt-3.5-turbo-0301" ∨ fromAssistant = true →
          (Completions (ConfigReads.const cfg) net msgMap uid msg fromAssistant).msgMap = msgMap)
      ∧ (cfg.Model = "gpt-3.5-turbo-0301" ∧ fromAssistant = false →
          (Completions (ConfigReads.const cfg) net msgMap uid msg fromAssistant).msgMap
            = addMsg msgMap uid (Msg.mk "user" msg)) := by
  have hstore := Completions_store (ConfigReads.const cfg) net msgMap uid msg fromAssistant
  have hloop : retryLoop (fun retry => httpRequestCompletions cfg net
        (getRequest cfg msgMap uid msg fromAssistant).1 retry) 1 ⟨none, none, []⟩
      = ⟨none, some "api key required",
          [Event.call 1, Event.sleep 100, Event.call 2, Event.sleep 200, Event.call 3]⟩ := by
    rw [retryLoop_unroll]
    simp [httpRequestCompletions_no_key cfg net _ _ hKey, IsSuccess, outcomeErr, outcomeBody]
  have hC : Completions (ConfigReads.const cfg) net msgMap uid msg fromAssistant
      = ⟨"", "", some "api key required", (getRequest cfg msgMap uid msg fromAssistant).2,
          [Event.call 1, Event.sleep 100, Event.call 2, Event.sleep 200, Event.call 3]⟩ := by
    unfold Completions
    simp only [ConfigReads.const]
    rw [hloop]
  refine ⟨by rw [hC], by rw [hC], by rw [hC], by rw [hC]; simp [posts], by rw [hC], ?_, ?_⟩
  · intro h
    rw [hC, getRequest_store]
    simp only []
    rw [if_neg]
    rcases h with h | h
    · exact fun hc => h hc.1
    · intro hc
      rw [h] at hc
      exact absurd hc.2 (by decide)
  · intro h
    rw [hC, getRequest_store]
    simp only []
    rw [if_pos h]

/-- C7 with an empty key and a legacy model: the error is returned and the store that
held one turn of `bob` is as before. -/
theorem C7_missing_api_key_witness :
    (Completions (ConfigReads.const ⟨"", "text-davinci-003", 512, 0⟩)
        (fun _ _ _ _ => .error "client.Do error: no route")
        (assign emptyMsgMap "bob" [Msg.mk "user" "hi"]) "bob" "again" false).err
      = some "api key required"
    ∧ (Completions (ConfigReads.const ⟨"", "text-davinci-003", 512, 0⟩)
        (fun _ _ _ _ => .error "client.Do error: no route")
        (assign emptyMsgMap "bob" [Msg.mk "user" "hi"]) "bob" "again" false).msgMap
      = assign emptyMsgMap "bob" [Msg.mk "user" "hi"] :=
  have h := C7_missing_api_key ⟨"", "text-davinci-003", 512, 0⟩
    (fun _ _ _ _ => .error "client.Do error: no route")
    (assign emptyMsgMap "bob" [Msg.mk "user" "hi"]) "bob" "again" false rfl
  ⟨h.1, h.2.2.2.2.2.1 (Or.inl (by decide))⟩

/-- C8 (retry count and early exit).  Let `k` in `1..3` be the first attempt that yields
an envelope with empty `Error.Message`, or 3 if there is none.  Then `Completions`
invokes the transport on the attempts `1, .., k` in this order and on no other (never a
4th), and when attempt `k` is such a success the call returns a nil error with the reply
and finish reason extracted from the envelope of attempt `k`. -/
theorem C8_retry_early_exit (cfg : Configuration) (net : Network) (msgMap : MsgMap)
    (uid msg : String) (fromAssistant : Bool) (k : Nat) (hk1 : 1 ≤ k) (hk3 : k ≤ 3)
    (hfail : ∀ j, 1 ≤ j → j < k →
      ¬ IsSuccess (attempt (ConfigReads.const cfg) net msgMap uid msg fromAssistant j))
    (hlast : k = 3
      ∨ IsSuccess (attempt (ConfigReads.const cfg) net msgMap uid msg fromAssistant k)) :
    calls (Completions (ConfigReads.const cfg) net msgMap uid msg fromAssistant).trace
        = List.range' 1 k
      ∧ 4 ∉ calls (Completions (ConfigReads.const cfg) net msgMap uid msg fromAssistant).trace
      ∧ (∀ env : ChatGPTResponseBody,
          attempt (ConfigReads.const cfg) net msgMap uid msg fromAssistant k = .ok env →
          env.Error.Message = "" →
          (Completions (ConfigReads.const cfg) net msgMap uid msg fromAssistant).err = none
            ∧ (Completions (ConfigReads.const cfg) net msgMap uid msg fromAssistant).reply
              = (extract cfg (some env)).1
            ∧ (Completions (ConfigReads.const cfg) net msgMap uid msg fromAssistant).reason
              = (extract cfg (some env)).2) := by
  have hC := Completions_const cfg net msgMap uid msg fromAssistant
  interval_cases k
  · -- the first attempt succeeds
    have h1 : IsSuccess (attempt (ConfigReads.const cfg) net msgMap uid msg fromAssistant 1) := by
      rcases hlast with h | h
      · exact absurd h (by decide)
      · exact h
    rw [hC, if_pos h1]
    refine ⟨?_, ?_, ?_⟩
    · simp [calls_append, calls_cons_call, calls_cons_sleep, calls_nil, calls_attemptEvents,
        List.range']
    · simp [calls_append, calls_cons_call, calls_cons_sleep, calls_nil, calls_attemptEvents,
        List.range']
    · intro env he _
      simp [he, outcomeBody]
  · have h1 := hfail 1 (by decide) (by decide)
    have h2 : IsSuccess (attempt (ConfigReads.const cfg) net msgMap uid msg fromAssistant 2) := by
      rcases hlast with h | h
      · exact absurd h (by decide)
      · exact h
    rw [hC, if_neg h1, if_pos h2]
    refine ⟨?_, ?_, ?_⟩
    · simp [calls_append, calls_cons_call, calls_cons_sleep, calls_nil, calls_attemptEvents,
        List.range']
    · simp [calls_append, calls_cons_call, calls_cons_sleep, calls_nil, calls_attemptEvents,
        List.range']
    · intro env he _
      simp [he, outcomeBody]
  · have h1 := hfail 1 (by decide) (by decide)
    have h2 := hfail 2 (by decide) (by decide)
    rw [hC, if_neg h1, if_neg h2]
    cases h3 : attempt (ConfigReads.const cfg) net msgMap uid msg fromAssistant 3 with
    | error e =>
      refine ⟨?_, ?_, ?_⟩
      · simp [calls_append, calls_cons_call, calls_cons_sleep, calls_nil, calls_attemptEvents,
        List.range']
      · simp [calls_append, calls_cons_call, calls_cons_sleep, calls_nil, calls_attemptEvents,
        List.range']
      · intro env he
        cases he
    | ok env3 =>
      refine ⟨?_, ?_, ?_⟩
      · simp [calls_append, calls_cons_call, calls_cons_sleep, calls_nil, calls_attemptEvents,
        List.range']
      · simp [calls_append, calls_cons_call, calls_cons_sleep, calls_nil, calls_attemptEvents,
        List.range']
      · intro env he _
        cases he
        simp

/-- C8 with a timeout on attempt 1, a provider error on attempt 2 and an answer on
attempt 3: three attempts are made and the reply of attempt 3 is returned. -/
theorem C8_retry_early_exit_witness :
    calls (Completions (ConfigReads.const ⟨"sk-1", "gpt-3.5-turbo-0301", 512, 0⟩)
        netThirdTime emptyMsgMap "bob" "hi" false).trace = [1, 2, 3]
    ∧ (Completions (ConfigReads.const ⟨"sk-1", "gpt-3.5-turbo-0301", 512, 0⟩)
        netThirdTime emptyMsgMap "bob" "hi" false).err = none
    ∧ (Completions (ConfigReads.const ⟨"sk-1", "gpt-3.5-turbo-0301", 512, 0⟩)
        netThirdTime emptyMsgMap "bob" "hi" false).reply = "hello"
    ∧ (Completions (ConfigReads.const ⟨"sk-1", "gpt-3.5-turbo-0301", 512, 0⟩)
        netThirdTime emptyMsgMap "bob" "hi" false).reason = "stop" := by
  have h := C8_retry_early_exit ⟨"sk-1", "gpt-3.5-turbo-0301", 512, 0⟩ netThirdTime
    emptyMsgMap "bob" "hi" false 3 (by decide) (by decide)
    (by
      intro j hj1 hj3
      interval_cases j <;>
        simp [attempt, httpRequestCompletions, ConfigReads.const, netThirdTime, IsSuccess,
          envelopeWith])
    (Or.inl rfl)
  have h3 := h.2.2 (envelopeWith "" [chatChoice "hello" "stop"])
    (by simp [attempt, httpRequestCompletions, ConfigReads.const, netThirdTime])
    rfl
  exact ⟨h.1, h3.1, h3.2.1, h3.2.2⟩

/-- C9 fails as stated: a transport error on attempt 1 followed by provider errors on
attempts 2 and 3 (no attempt succeeds, one is a transport error) is not returned; the
call ends with a nil error. -/
theorem C9_counterexample :
    attempt (ConfigReads.const ⟨"sk-1", "gpt-3.5-turbo-0301", 512, 0⟩)
        netErrorThenProvider emptyMsgMap "bob" "hi" false 1
      = .error "client.Do error: timeout"
    ∧ attempt (ConfigReads.const ⟨"sk-1", "gpt-3.5-turbo-0301", 512, 0⟩)
        netErrorThenProvider emptyMsgMap "bob" "hi" false 2
      = .ok (envelopeWith "rate limit" [])
    ∧ attempt (ConfigReads.const ⟨"sk-1", "gpt-3.5-turbo-0301", 512, 0⟩)
        netErrorThenProvider emptyMsgMap "bob" "hi" false 3
      = .ok (envelopeWith "rate limit" [])
    ∧ (Completions (ConfigReads.const ⟨"sk-1", "gpt-3.5-turbo-0301", 512, 0⟩)
        netErrorThenProvider emptyMsgMap "bob" "hi" false).err = none := by
  have h1 : attempt (ConfigReads.const ⟨"sk-1", "gpt-3.5-turbo-0301", 512, 0⟩)
      netErrorThenProvider emptyMsgMap "bob" "hi" false 1
      = .error "client.Do error: timeout" := by
    simp [attempt, httpRequestCompletions, ConfigReads.const, netErrorThenProvider]
  have h2 : attempt (ConfigReads.const ⟨"sk-1", "gpt-3.5-turbo-0301", 512, 0⟩)
      netErrorThenProvider emptyMsgMap "bob" "hi" false 2
      = .ok (envelopeWith "rate limit" []) := by
    simp [attempt, httpRequestCompletions, ConfigReads.const, netErrorThenProvider]
  have h3 : attempt (ConfigReads.const ⟨"sk-1", "gpt-3.5-turbo-0301", 512, 0⟩)
      netErrorThenProvider emptyMsgMap "bob" "hi" false 3
      = .ok (envelopeWith "rate limit" []) := by
    simp [attempt, httpRequestCompletions, ConfigReads.const, netErrorThenProvider]
  refine ⟨h1, h2, h3, ?_⟩
  rw [Completions_const, h1, h2, h3]
  simp [IsSuccess, envelopeWith]

/-- C9, amended.  When attempts 1 and 2 do not succeed and attempt 3 is a transport
error `e`, `Completions` returns `("", "", e)`: the error of the last attempt.  When
attempts 1 and 2 do not succeed and attempt 3 yields an envelope, the error returned is
nil, whether or not attempt 1 or 2 was a transport error. -/
theorem C9_last_attempt_error (cfg : Configuration) (net : Network) (msgMap : MsgMap)
    (uid msg : String) (fromAssistant : Bool)
    (h1 : ¬ IsSuccess (attempt (ConfigReads.const cfg) net msgMap uid msg fromAssistant 1))
    (h2 : ¬ IsSuccess (attempt (ConfigReads.const cfg) net msgMap uid msg fromAssistant 2)) :
    (∀ e : String,
        attempt (ConfigReads.const cfg) net msgMap uid msg fromAssistant 3 = .error e →
        (Completions (ConfigReads.const cfg) net msgMap uid msg fromAssistant).reply = ""
          ∧ (Completions (ConfigReads.const cfg) net msgMap uid msg fromAssistant).reason = ""
          ∧ (Completions (ConfigReads.const cfg) net msgMap uid msg fromAssistant).err = some e)
      ∧ (∀ env : ChatGPTResponseBody,
        attempt (ConfigReads.const cfg) net msgMap uid msg fromAssistant 3 = .ok env →
        (Completions (ConfigReads.const cfg) net msgMap uid msg fromAssistant).err = none) := by
  rw [Completions_const, if_neg h1, if_neg h2]
  constructor
  · intro e h3
    rw [h3]
    exact ⟨rfl, rfl, rfl⟩
  · intro env h3
    rw [h3]

/-- C9 (amended) where every attempt is a transport error: the error returned is the
one of attempt 3. -/
theorem C9_last_attempt_error_witness :
    (Completions (ConfigReads.const ⟨"sk-1", "text-davinci-003", 512, 0⟩)
        (fun _ _ _ retry => .error ("client.Do error: timeout " ++ toString retry))
        emptyMsgMap "bob" "hi" false).err
      = some "client.Do error: timeout 3" := by
  have h := C9_last_attempt_error ⟨"sk-1", "text-davinci-003", 512, 0⟩
    (fun _ _ _ retry => .error ("client.Do error: timeout " ++ toString retry))
    emptyMsgMap "bob" "hi" false
    (by simp [attempt, httpRequestCompletions, ConfigReads.const, IsSuccess])
    (by simp [attempt, httpRequestCompletions, ConfigReads.const, IsSuccess])
  exact (h.1 "client.Do error: timeout 3"
    (by simp [attempt, httpRequestCompletions, ConfigReads.const]; decide)).2.2

/-- C10 fails as stated: when every answer carries a non-empty `Error.Message` and also
a choice, the call returns a nil error and the text of that choice, not an empty reply. -/
theorem C10_counterexample :
    (∀ retry, attempt (ConfigReads.const ⟨"sk-1", "text-davinci-003", 512, 0⟩)
        netProviderWithChoice emptyMsgMap "bob" "hi" false retry
      = .ok (envelopeWith "rate limit" [textChoice "partial" "length"]))
    ∧ (envelopeWith "rate limit" [textChoice "partial" "length"]).Error.Message ≠ ""
    ∧ (Completions (ConfigReads.const ⟨"sk-1", "text-davinci-003", 512, 0⟩)
        netProviderWithChoice emptyMsgMap "bob" "hi" false).err = none
    ∧ (Completions (ConfigReads.const ⟨"sk-1", "text-davinci-003", 512, 0⟩)
        netProviderWithChoice emptyMsgMap "bob" "hi" false).reply = "partial" := by
  have ha : ∀ retry, attempt (ConfigReads.const ⟨"sk-1", "text-davinci-003", 512, 0⟩)
      netProviderWithChoice emptyMsgMap "bob" "hi" false retry
      = .ok (envelopeWith "rate limit" [textChoice "partial" "length"]) := by
    intro retry
    simp [attempt, httpRequestCompletions, ConfigReads.const, netProviderWithChoice]
  refine ⟨ha, by decide, ?_, ?_⟩
  · rw [Completions_const, ha 1, ha 2, ha 3]
    simp [IsSuccess, envelopeWith]
  · rw [Completions_const, ha 1, ha 2, ha 3]
    simp [IsSuccess, envelopeWith, extract, textChoice]

/-- C10, amended.  When each of the attempts 1, 2, 3 yields an envelope with a
non-empty `Error.Message`, `Completions` makes exactly the attempts 1, 2, 3 and returns
a nil error with the reply and finish reason extracted from the envelope of attempt 3;
both are empty when that envelope has no choices. -/
theorem C10_provider_only (cfg : Configuration) (net : Network) (msgMap : MsgMap)
    (uid msg : String) (fromAssistant : Bool) (env1 env2 env3 : ChatGPTResponseBody)
    (h1 : attempt (ConfigReads.const cfg) net msgMap uid msg fromAssistant 1 = .ok env1)
    (h2 : attempt (ConfigReads.const cfg) net msgMap uid msg fromAssistant 2 = .ok env2)
    (h3 : attempt (ConfigReads.const cfg) net msgMap uid msg fromAssistant 3 = .ok env3)
    (he1 : env1.Error.Message ≠ "") (he2 : env2.Error.Message ≠ "")
    (_he3 : env3.Error.Message ≠ "") :
    calls (Completions (ConfigReads.const cfg) net msgMap uid msg fromAssistant).trace
        = [1, 2, 3]
      ∧ (Completions (ConfigReads.const cfg) net msgMap uid msg fromAssistant).err = none
      ∧ (Completions (ConfigReads.const cfg) net msgMap uid msg fromAssistant).reply
        = (extract cfg (some env3)).1
      ∧ (Completions (ConfigReads.const cfg) net msgMap uid msg fromAssistant).reason
        = (extract cfg (some env3)).2
      ∧ (env3.Choices = [] →
          (Completions (ConfigReads.const cfg) net msgMap uid msg fromAssistant).reply = ""
            ∧ (Completions (ConfigReads.const cfg) net msgMap uid msg fromAssistant).reason
              = "") := by
  have hn1 : ¬ IsSuccess (attempt (ConfigReads.const cfg) net msgMap uid msg fromAssistant 1) := by
    rw [h1]; exact he1
  have hn2 : ¬ IsSuccess (attempt (ConfigReads.const cfg) net msgMap uid msg fromAssistant 2) := by
    rw [h2]; exact he2
  rw [Completions_const, if_neg hn1, if_neg hn2, h3]
  refine ⟨?_, rfl, rfl, rfl, ?_⟩
  · simp [calls_append, calls_cons_call, calls_cons_sleep, calls_nil, calls_attemptEvents]
  · intro hc
    by_cases hm : cfg.Model = "gpt-3.5-turbo-0301" <;> simp [extract, hc, hm]

/-- C10 (amended) with the chat model and a remote side that always answers with a
provider error and no choices: three attempts, nil error, empty reply. -/
theorem C10_provider_only_witness :
    calls (Completions (ConfigReads.const ⟨"sk-1", "gpt-3.5-turbo-0301", 512, 0⟩)
        (fun _ _ _ _ => .ok (envelopeWith "invalid model" []))
        emptyMsgMap "bob" "hi" false).trace = [1, 2, 3]
    ∧ (Completions (ConfigReads.const ⟨"sk-1", "gpt-3.5-turbo-0301", 512, 0⟩)
        (fun _ _ _ _ => .ok (envelopeWith "invalid model" []))
        emptyMsgMap "bob" "hi" false).err = none
    ∧ (Completions (ConfigReads.const ⟨"sk-1", "gpt-3.5-turbo-0301", 512, 0⟩)
        (fun _ _ _ _ => .ok (envelopeWith "invalid model" []))
        emptyMsgMap "bob" "hi" false).reply = "" := by
  have h := C10_provider_only ⟨"sk-1", "gpt-3.5-turbo-0301", 512, 0⟩
    (fun _ _ _ _ => .ok (envelopeWith "invalid model" []))
    emptyMsgMap "bob" "hi" false
    (envelopeWith "invalid model" []) (envelopeWith "invalid model" [])
    (envelopeWith "invalid model" [])
    (by simp [attempt, httpRequestCompletions, ConfigReads.const])
    (by simp [attempt, httpRequestCompletions, ConfigReads.const])
    (by simp [attempt, httpRequestCompletions, ConfigReads.const])
    (by decide) (by decide) (by decide)
  exact ⟨h.1, h.2.1, (h.2.2.2.2 rfl).1⟩

/-! ## Lemmas on extraction -/

/-- The guard of the extraction keeps the index `0` in range: the checked extraction
never panics and yields what `extract` yields. -/
theorem extractChecked_eq (cfg : Configuration) (gptResponseBody : Option ChatGPTResponseBody) :
    extractChecked cfg gptResponseBody = some (extract cfg gptResponseBody) := by
  unfold extractChecked extract
  cases gptResponseBody with
  | none => simp
  | some body =>
    by_cases hm : cfg.Model = "gpt-3.5-turbo-0301"
    · cases hc : body.Choices with
      | nil => simp [hm, hc]
      | cons c rest => simp [hm, hc]
    · cases hc : body.Choices with
      | nil => simp [hm, hc]
      | cons c rest => simp [hm, hc]

theorem extract_no_choices (cfg : Configuration) (env : ChatGPTResponseBody)
    (h : env.Choices = []) : extract cfg (some env) = ("", "") := by
  by_cases hm : cfg.Model = "gpt-3.5-turbo-0301" <;> simp [extract, h, hm]

theorem extract_chat (cfg : Configuration) (env : ChatGPTResponseBody) (c : ChoiceItem)
    (rest : List ChoiceItem) (hm : cfg.Model = "gpt-3.5-turbo-0301")
    (h : env.Choices = c :: rest) :
    extract cfg (some env) = (c.Message.Content, c.FinishReason) := by
  simp [extract, h, hm]

theorem extract_legacy (cfg : Configuration) (env : ChatGPTResponseBody) (c : ChoiceItem)
    (rest : List ChoiceItem) (hm : cfg.Model ≠ "gpt-3.5-turbo-0301")
    (h : env.Choices = c :: rest) :
    extract cfg (some env) = (c.Text, c.FinishReason) := by
  simp [extract, h, hm]

/-- When the last attempt made yields an envelope, the call returns what is extracted
from that envelope, with a nil error. -/
theorem Completions_last_envelope (cfg : Configuration) (net : Network) (msgMap : MsgMap)
    (uid msg : String) (fromAssistant : Bool) (k : Nat) (hk1 : 1 ≤ k) (hk3 : k ≤ 3)
    (hfail : ∀ j, 1 ≤ j → j < k →
      ¬ IsSuccess (attempt (ConfigReads.const cfg) net msgMap uid msg fromAssistant j))
    (hlast : k = 3
      ∨ IsSuccess (attempt (ConfigReads.const cfg) net msgMap uid msg fromAssistant k))
    (env : ChatGPTResponseBody)
    (henv : attempt (ConfigReads.const cfg) net msgMap uid msg fromAssistant k = .ok env) :
    (Completions (ConfigReads.const cfg) net msgMap uid msg fromAssistant).err = none
      ∧ (Completions (ConfigReads.const cfg) net msgMap uid msg fromAssistant).reply
        = (extract cfg (some env)).1
      ∧ (Completions (ConfigReads.const cfg) net msgMap uid msg fromAssistant).reason
        = (extract cfg (some env)).2 := by
  interval_cases k
  · have h1 : IsSuccess (attempt (ConfigReads.const cfg) net msgMap uid msg fromAssistant 1) := by
      rcases hlast with h | h
      · exact absurd h (by decide)
      · exact h
    rw [Completions_const, if_pos h1, henv]
    exact ⟨rfl, rfl, rfl⟩
  · have h1 := hfail 1 (by decide) (by decide)
    have h2 : IsSuccess (attempt (ConfigReads.const cfg) net msgMap uid msg fromAssistant 2) := by
      rcases hlast with h | h
      · exact absurd h (by decide)
      · exact h
    rw [Completions_const, if_neg h1, if_pos h2, henv]
    exact ⟨rfl, rfl, rfl⟩
  · have h1 := hfail 1 (by decide) (by decide)
    have h2 := hfail 2 (by decide) (by decide)
    rw [Completions_const, if_neg h1, if_neg h2, henv]
    exact ⟨rfl, rfl, rfl⟩

/-! ## The response extractor -/

/-- C11 (response extraction).  Let `env` be the envelope of the last attempt made (the
first successful attempt, or attempt 3), so that the call ends without an error.  Then
`Completions` returns a nil error and: with the chat model and at least one choice,
`(Choices[0].Message.Content, Choices[0].FinishReason)`; with any other model and at
least one choice, `(Choices[0].Text, Choices[0].FinishReason)`; with no choices,
`("", "")`.  The index `0` is in range wherever `Choices[0]` is evaluated. -/
theorem C11_response_extraction (cfg : Configuration) (net : Network) (msgMap : MsgMap)
    (uid msg : String) (fromAssistant : Bool) (k : Nat) (hk1 : 1 ≤ k) (hk3 : k ≤ 3)
    (hfail : ∀ j, 1 ≤ j → j < k →
      ¬ IsSuccess (attempt (ConfigReads.const cfg) net msgMap uid msg fromAssistant j))
    (hlast : k = 3
      ∨ IsSuccess (attempt (ConfigReads.const cfg) net msgMap uid msg fromAssistant k))
    (env : ChatGPTResponseBody)
    (henv : attempt (ConfigReads.const cfg) net msgMap uid msg fromAssistant k = .ok env) :
    (Completions (ConfigReads.const cfg) net msgMap uid msg fromAssistant).err = none
      ∧ (cfg.Model = "gpt-3.5-turbo-0301" → ∀ (c : ChoiceItem) (rest : List ChoiceItem),
          env.Choices = c :: rest →
          (Completions (ConfigReads.const cfg) net msgMap uid msg fromAssistant).reply
              = c.Message.Content
            ∧ (Completions (ConfigReads.const cfg) net msgMap uid msg fromAssistant).reason
              = c.FinishReason)
      ∧ (cfg.Model ≠ "gpt-3.5-turbo-0301" → ∀ (c : ChoiceItem) (rest : List ChoiceItem),
          env.Choices = c :: rest →
          (Completions (ConfigReads.const cfg) net msgMap uid msg fromAssistant).reply = c.Text
            ∧ (Completions (ConfigReads.const cfg) net msgMap uid msg fromAssistant).reason
              = c.FinishReason)
      ∧ (env.Choices = [] →
          (Completions (ConfigReads.const cfg) net msgMap uid msg fromAssistant).reply = ""
            ∧ (Completions (ConfigReads.const cfg) net msgMap uid msg fromAssistant).reason
              = "")
      ∧ extractChecked cfg (some env)
        = some ((Completions (ConfigReads.const cfg) net msgMap uid msg fromAssistant).reply,
            (Completions (ConfigReads.const cfg) net msgMap uid msg fromAssistant).reason) := by
  obtain ⟨herr, hreply, hreason⟩ := Completions_last_envelope cfg net msgMap uid msg
    fromAssistant k hk1 hk3 hfail hlast env henv
  rw [hreply, hreason]
  refine ⟨herr, ?_, ?_, ?_, ?_⟩
  · intro hm c rest hc
    rw [extract_chat cfg env c rest hm hc]
    exact ⟨rfl, rfl⟩
  · intro hm c rest hc
    rw [extract_legacy cfg env c rest hm hc]
    exact ⟨rfl, rfl⟩
  · intro hc
    rw [extract_no_choices cfg env hc]
    exact ⟨rfl, rfl⟩
  · rw [extractChecked_eq]

/-- C11 with a legacy model whose first attempt answers with one choice. -/
theorem C11_response_extraction_witness :
    (Completions (ConfigReads.const ⟨"sk-1", "text-davinci-003", 512, 0⟩)
        (fun _ _ _ _ => .ok (envelopeWith "" [textChoice "la la" "stop"]))
        emptyMsgMap "bob" "give me good song" false).err = none
    ∧ (Completions (ConfigReads.const ⟨"sk-1", "text-davinci-003", 512, 0⟩)
        (fun _ _ _ _ => .ok (envelopeWith "" [textChoice "la la" "stop"]))
        emptyMsgMap "bob" "give me good song" false).reply = "la la"
    ∧ (Completions (ConfigReads.const ⟨"sk-1", "text-davinci-003", 512, 0⟩)
        (fun _ _ _ _ => .ok (envelopeWith "" [textChoice "la la" "stop"]))
        emptyMsgMap "bob" "give me good song" false).reason = "stop" := by
  have h := C11_response_extraction ⟨"sk-1", "text-davinci-003", 512, 0⟩
    (fun _ _ _ _ => .ok (envelopeWith "" [textChoice "la la" "stop"]))
    emptyMsgMap "bob" "give me good song" false 1 (by decide) (by decide)
    (by intro j hj1 hj; omega)
    (Or.inr (by simp [attempt, httpRequestCompletions, ConfigReads.const, IsSuccess,
      envelopeWith]))
    (envelopeWith "" [textChoice "la la" "stop"])
    (by simp [attempt, httpRequestCompletions, ConfigReads.const])
  have h2 := h.2.2.1 (by decide) (textChoice "la la" "stop") [] rfl
  exact ⟨h.1, h2.1, h2.2⟩

/-! ## Lemmas on the trace of a call -/

theorem sleeps_nil : sleeps [] = [] := rfl

theorem sleeps_cons_call (retry : Nat) (t : List Event) :
    sleeps (Event.call retry :: t) = sleeps t := by
  simp [sleeps]

theorem sleeps_cons_sleep (ms : Nat) (t : List Event) :
    sleeps (Event.sleep ms :: t) = ms :: sleeps t := by
  simp [sleeps]

theorem schedule_nil : schedule [] = [] := rfl

theorem schedule_cons_call (retry : Nat) (t : List Event) :
    schedule (Event.call retry :: t) = Event.call retry :: schedule t := by
  simp [schedule]

theorem schedule_cons_sleep (ms : Nat) (t : List Event) :
    schedule (Event.sleep ms :: t) = Event.sleep ms :: schedule t := by
  simp [schedule]

theorem schedule_append (a b : List Event) : schedule (a ++ b) = schedule a ++ schedule b := by
  simp [schedule]

theorem schedule_attemptEvents (cfgs : ConfigReads) (net : Network) (msgMap : MsgMap)
    (uid msg : String) (fromAssistant : Bool) (retry : Nat) :
    schedule (attemptEvents cfgs net msgMap uid msg fromAssistant retry) = [] := by
  unfold attemptEvents httpRequestCompletions
  split <;> simp [schedule]

/-- The events of a call are those of its retry loop. -/
theorem Completions_trace (cfgs : ConfigReads) (net : Network) (msgMap : MsgMap)
    (uid msg : String) (fromAssistant : Bool) :
    (Completions cfgs net msgMap uid msg fromAssistant).trace
      = (loopResult cfgs net msgMap uid msg fromAssistant).trace := by
  unfold Completions loopResult
  simp only []
  split
  · rfl
  · split <;> rfl

/-- The state in which the retry loop is left, by the outcomes of the attempts. -/
theorem loopResult_unroll (cfgs : ConfigReads) (net : Network) (msgMap : MsgMap)
    (uid msg : String) (fromAssistant : Bool) :
    loopResult cfgs net msgMap uid msg fromAssistant =
      if IsSuccess (attempt cfgs net msgMap uid msg fromAssistant 1) then
        ⟨outcomeBody (attempt cfgs net msgMap uid msg fromAssistant 1), none,
          [Event.call 1] ++ attemptEvents cfgs net msgMap uid msg fromAssistant 1⟩
      else if IsSuccess (attempt cfgs net msgMap uid msg fromAssistant 2) then
        ⟨outcomeBody (attempt cfgs net msgMap uid msg fromAssistant 2), none,
          [Event.call 1] ++ attemptEvents cfgs net msgMap uid msg fromAssistant 1
            ++ [Event.sleep 100, Event.call 2]
            ++ attemptEvents cfgs net msgMap uid msg fromAssistant 2⟩
      else
        ⟨outcomeBody (attempt cfgs net msgMap uid msg fromAssistant 3),
          outcomeErr (attempt cfgs net msgMap uid msg fromAssistant 3),
          [Event.call 1] ++ attemptEvents cfgs net msgMap uid msg fromAssistant 1
            ++ [Event.sleep 100, Event.call 2]
            ++ attemptEvents cfgs net msgMap uid msg fromAssistant 2
            ++ [Event.sleep 200, Event.call 3]
            ++ attemptEvents cfgs net msgMap uid msg fromAssistant 3⟩ := by
  unfold loopResult
  rw [retryLoop_unroll]
  rfl

/-- With an empty key every attempt ends at the guard of the transport. -/
theorem attempt_no_key (cfg : Configuration) (net : Network) (msgMap : MsgMap)
    (uid msg : String) (fromAssistant : Bool) (retry : Nat) (hKey : cfg.ApiKey = "") :
    attempt (ConfigReads.const cfg) net msgMap uid msg fromAssistant retry
        = .error "api key required"
      ∧ attemptEvents (ConfigReads.const cfg) net msgMap uid msg fromAssistant retry = [] := by
  unfold attempt attemptEvents
  simp only [ConfigReads.const]
  rw [httpRequestCompletions_no_key cfg net _ retry hKey]
  exact ⟨rfl, rfl⟩

/-! ## Retries, backoff and history effects -/

/-- C12 fails as stated: with an empty API key the transport is invoked three times and
the call sleeps 100 ms and 200 ms before it returns the error. -/
theorem C12_counterexample :
    calls (Completions (ConfigReads.const ⟨"", "text-davinci-003", 512, 0⟩)
        (fun _ _ _ _ => .error "client.Do error: no route") emptyMsgMap "bob" "hi" false).trace
      = [1, 2, 3]
    ∧ sleeps (Completions (ConfigReads.const ⟨"", "text-davinci-003", 512, 0⟩)
        (fun _ _ _ _ => .error "client.Do error: no route") emptyMsgMap "bob" "hi" false).trace
      = [100, 200]
    ∧ (Completions (ConfigReads.const ⟨"", "text-davinci-003", 512, 0⟩)
        (fun _ _ _ _ => .error "client.Do error: no route") emptyMsgMap "bob" "hi" false).err
      = some "api key required" := by
  rw [Completions_const]
  simp [attempt, attemptEvents, httpRequestCompletions, ConfigReads.const, IsSuccess,
    calls, sleeps]

/-- C12, amended.  With an empty API key, `Completions` treats the configuration error
like any other transport error: it invokes the transport on the attempts 1, 2 and 3,
each of which returns "api key required" without handing anything to the network, it
sleeps 100 ms before attempt 2 and 200 ms before attempt 3, and it returns
`("", "", "api key required")` after the third attempt. -/
theorem C12_missing_key_retried (cfg : Configuration) (net : Network) (msgMap : MsgMap)
    (uid msg : String) (fromAssistant : Bool) (hKey : cfg.ApiKey = "") :
    (Completions (ConfigReads.const cfg) net msgMap uid msg fromAssistant).trace
        = [Event.call 1, Event.sleep 100, Event.call 2, Event.sleep 200, Event.call 3]
      ∧ calls (Completions (ConfigReads.const cfg) net msgMap uid msg fromAssistant).trace
        = [1, 2, 3]
      ∧ sleeps (Completions (ConfigReads.const cfg) net msgMap uid msg fromAssistant).trace
        = [100, 200]
      ∧ posts (Completions (ConfigReads.const cfg) net msgMap uid msg fromAssistant).trace = []
      ∧ (∀ retry,
          attempt (ConfigReads.const cfg) net msgMap uid msg fromAssistant retry
            = .error "api key required")
      ∧ (Completions (ConfigReads.const cfg) net msgMap uid msg fromAssistant).reply = ""
      ∧ (Completions (ConfigReads.const cfg) net msgMap uid msg fromAssistant).reason = ""
      ∧ (Completions (ConfigReads.const cfg) net msgMap uid msg fromAssistant).err
        = some "api key required" := by
  have ha := fun retry => attempt_no_key cfg net msgMap uid msg fromAssistant retry hKey
  have hC : Completions (ConfigReads.const cfg) net msgMap uid msg fromAssistant
      = ⟨"", "", some "api key required", (getRequest cfg msgMap uid msg fromAssistant).2,
          [Event.call 1, Event.sleep 100, Event.call 2, Event.sleep 200, Event.call 3]⟩ := by
    rw [Completions_const, (ha 1).1, (ha 2).1, (ha 3).1, (ha 1).2, (ha 2).2, (ha 3).2]
    simp [IsSuccess]
  rw [hC]
  exact ⟨rfl, by simp [calls], by simp [sleeps], by simp [posts], fun retry => (ha retry).1,
    rfl, rfl, rfl⟩

/-- C12 (amended) with an empty key and the chat model. -/
theorem C12_missing_key_retried_witness :
    (Completions (ConfigReads.const ⟨"", "gpt-3.5-turbo-0301", 512, 0⟩)
        (fun _ _ _ _ => .ok (envelopeWith "" [chatChoice "hello" "stop"]))
        emptyMsgMap "bob" "hi" true).trace
      = [Event.call 1, Event.sleep 100, Event.call 2, Event.sleep 200, Event.call 3]
    ∧ (Completions (ConfigReads.const ⟨"", "gpt-3.5-turbo-0301", 512, 0⟩)
        (fun _ _ _ _ => .ok (envelopeWith "" [chatChoice "hello" "stop"]))
        emptyMsgMap "bob" "hi" true).err
      = some "api key required" :=
  have h := C12_missing_key_retried ⟨"", "gpt-3.5-turbo-0301", 512, 0⟩
    (fun _ _ _ _ => .ok (envelopeWith "" [chatChoice "hello" "stop"]))
    emptyMsgMap "bob" "hi" true rfl
  ⟨h.1, h.2.2.2.2.2.2.2⟩

/-- C13 (history effects happen once).  Whatever the transport does (any remote side,
any configuration read by the attempts or by the extraction), the store after
`Completions` is the store after one `getRequest` on the initial store: the initial
store with `{user, msg}` recorded once by `addMsg` for a user-origin chat-family call,
and the initial store itself otherwise.  Two runs that differ only in the behaviour of
the transport leave the same store. -/
theorem C13_history_effects_once (build : Configuration) (sendA sendB : Nat → Configuration)
    (extractA extractB : Configuration) (netA netB : Network) (msgMap : MsgMap)
    (uid msg : String) (fromAssistant : Bool) :
    (Completions ⟨build, sendA, extractA⟩ netA msgMap uid msg fromAssistant).msgMap
        = (Completions ⟨build, sendB, extractB⟩ netB msgMap uid msg fromAssistant).msgMap
      ∧ (Completions ⟨build, sendA, extractA⟩ netA msgMap uid msg fromAssistant).msgMap
        = (getRequest build msgMap uid msg fromAssistant).2
      ∧ (Completions ⟨build, sendA, extractA⟩ netA msgMap uid msg fromAssistant).msgMap
        = (if build.Model = "gpt-3.5-turbo-0301" ∧ fromAssistant = false then
            addMsg msgMap uid (Msg.mk "user" msg)
          else msgMap) := by
  rw [Completions_store, Completions_store]
  exact ⟨rfl, rfl, getRequest_store build msgMap uid msg fromAssistant⟩

/-- C14 (linear backoff).  The sleeps and transport invocations of a call are, in order,
`call 1`, then `sleep 100, call 2` if there is a second attempt, then
`sleep 200, call 3` if there is a third: nothing is slept before attempt 1 and
`(i - 1) * 100` ms before attempt `i`.  The total is 0 ms with one attempt, 100 ms with
two, 300 ms with three, and never more than 300 ms. -/
theorem C14_linear_backoff (cfgs : ConfigReads) (net : Network) (msgMap : MsgMap)
    (uid msg : String) (fromAssistant : Bool) :
    (schedule (Completions cfgs net msgMap uid msg fromAssistant).trace = [Event.call 1]
        ∨ schedule (Completions cfgs net msgMap uid msg fromAssistant).trace
          = [Event.call 1, Event.sleep 100, Event.call 2]
        ∨ schedule (Completions cfgs net msgMap uid msg fromAssistant).trace
          = [Event.call 1, Event.sleep 100, Event.call 2, Event.sleep 200, Event.call 3])
      ∧ sleeps (Completions cfgs net msgMap uid msg fromAssistant).trace
        = ((calls (Completions cfgs net msgMap uid msg fromAssistant).trace).drop 1).map
            (fun i => (i - 1) * 100)
      ∧ ((calls (Completions cfgs net msgMap uid msg fromAssistant).trace).length = 1 →
          (sleeps (Completions cfgs net msgMap uid msg fromAssistant).trace).sum = 0)
      ∧ ((calls (Completions cfgs net msgMap uid msg fromAssistant).trace).length = 2 →
          (sleeps (Completions cfgs net msgMap uid msg fromAssistant).trace).sum = 100)
      ∧ ((calls (Completions cfgs net msgMap uid msg fromAssistant).trace).length = 3 →
          (sleeps (Completions cfgs net msgMap uid msg fromAssistant).trace).sum = 300)
      ∧ (sleeps (Completions cfgs net msgMap uid msg fromAssistant).trace).sum ≤ 300 := by
  rw [Completions_trace, loopResult_unroll]
  by_cases h1 : IsSuccess (attempt cfgs net msgMap uid msg fromAssistant 1)
  · simp [h1, schedule_append, schedule_cons_call, schedule_cons_sleep, schedule_nil,
      schedule_attemptEvents, calls_append, calls_cons_call, calls_cons_sleep, calls_nil,
      calls_attemptEvents, sleeps_append, sleeps_cons_call, sleeps_cons_sleep, sleeps_nil,
      sleeps_attemptEvents]
  · by_cases h2 : IsSuccess (attempt cfgs net msgMap uid msg fromAssistant 2)
    · simp [h1, h2, schedule_append, schedule_cons_call, schedule_cons_sleep, schedule_nil,
        schedule_attemptEvents, calls_append, calls_cons_call, calls_cons_sleep, calls_nil,
        calls_attemptEvents, sleeps_append, sleeps_cons_call, sleeps_cons_sleep, sleeps_nil,
        sleeps_attemptEvents]
    · simp [h1, h2, schedule_append, schedule_cons_call, schedule_cons_sleep, schedule_nil,
        schedule_attemptEvents, calls_append, calls_cons_call, calls_cons_sleep, calls_nil,
        calls_attemptEvents, sleeps_append, sleeps_cons_call, sleeps_cons_sleep, sleeps_nil,
        sleeps_attemptEvents]

/-! ## The wire format -/

theorem jsonMarshal_finite (r : ChatGPTRequestBody) (h : float64IsFinite r.Temperature = true) :
    jsonMarshal r = some ([("model", JsonValue.string r.Model)]
      ++ (if r.Messages.length = 0 then [] else [("messages", JsonValue.messages r.Messages)])
      ++ (if r.Prompt.length = 0 then [] else [("prompt", JsonValue.string r.Prompt)])
      ++ [("max_tokens", JsonValue.number r.MaxTokens),
          ("temperature", JsonValue.float r.Temperature),
          ("top_p", JsonValue.number r.TopP),
          ("frequency_penalty", JsonValue.number r.FrequencyPenalty),
          ("presence_penalty", JsonValue.number r.PresencePenalty)]) := by
  simp [jsonMarshal, h]

theorem jsonMarshal_some (r : ChatGPTRequestBody) (obj : List (String × JsonValue))
    (h : jsonMarshal r = some obj) : float64IsFinite r.Temperature = true := by
  by_cases hf : float64IsFinite r.Temperature = true
  · exact hf
  · simp [jsonMarshal, hf] at h

/-- C15 (wire-format omission).  Let `obj` be the JSON object that serialising a request
built by `getRequest` produces.  With the chat model `obj` has no member `prompt` (and
has the member `messages`); with any other model `obj` has no member `messages`.  The
omitted member is absent: no pair with that key occurs in `obj`, whatever its value. -/
theorem C15_wire_omission (cfg : Configuration) (msgMap : MsgMap) (uid msg : String)
    (fromAssistant : Bool) (obj : List (String × JsonValue))
    (hobj : jsonMarshal (getRequest cfg msgMap uid msg fromAssistant).1 = some obj) :
    (cfg.Model = "gpt-3.5-turbo-0301" →
        "prompt" ∉ jsonKeys obj ∧ (∀ v : JsonValue, ("prompt", v) ∉ obj)
          ∧ "messages" ∈ jsonKeys obj)
      ∧ (cfg.Model ≠ "gpt-3.5-turbo-0301" →
        "messages" ∉ jsonKeys obj ∧ (∀ v : JsonValue, ("messages", v) ∉ obj)) := by
  have hfin := jsonMarshal_some _ obj hobj
  rw [jsonMarshal_finite _ hfin] at hobj
  injection hobj with hobj
  subst hobj
  constructor
  · intro hm
    have hne : (getRequest cfg msgMap uid msg fromAssistant).1.Messages ≠ [] := by
      cases fromAssistant
      · rw [getRequest_chat_user cfg msgMap uid msg hm]
        simp only []
        rw [lookup_addMsg_same]
        split
        · rename_i hlen
          intro h
          have hl := congrArg List.length h
          rw [List.length_drop, List.length_append] at hl
          simp only [List.length_append, List.length_singleton, List.length_nil] at hl hlen
          omega
        · simp
      · rw [getRequest_chat_assistant cfg msgMap uid msg hm]
        simp
    have hp : (getRequest cfg msgMap uid msg fromAssistant).1.Prompt = "" := by
      cases fromAssistant
      · rw [getRequest_chat_user cfg msgMap uid msg hm]
      · rw [getRequest_chat_assistant cfg msgMap uid msg hm]
    simp [jsonKeys, hp, hne]
  · intro hm
    rw [getRequest_legacy cfg msgMap uid msg fromAssistant hm]
    by_cases hmsg : msg.length = 0 <;> simp [jsonKeys, hmsg]

/-- C15 for a chat request: the object written has exactly these keys. -/
theorem C15_wire_omission_witness :
    jsonMarshal (getRequest ⟨"sk-1", "gpt-3.5-turbo-0301", 512, 0⟩ emptyMsgMap "bob" "hi"
        false).1
      = some [("model", JsonValue.string "gpt-3.5-turbo-0301"),
          ("messages", JsonValue.messages [Msg.mk "user" "hi"]),
          ("max_tokens", JsonValue.number 512),
          ("temperature", JsonValue.float 0),
          ("top_p", JsonValue.number 1),
          ("frequency_penalty", JsonValue.number 0),
          ("presence_penalty", JsonValue.number 0)]
    ∧ "prompt" ∉ jsonKeys [("model", JsonValue.string "gpt-3.5-turbo-0301"),
          ("messages", JsonValue.messages [Msg.mk "user" "hi"]),
          ("max_tokens", JsonValue.number 512),
          ("temperature", JsonValue.float 0),
          ("top_p", JsonValue.number 1),
          ("frequency_penalty", JsonValue.number 0),
          ("presence_penalty", JsonValue.number 0)] :=
  have hobj : jsonMarshal (getRequest ⟨"sk-1", "gpt-3.5-turbo-0301", 512, 0⟩ emptyMsgMap
      "bob" "hi" false).1
      = some [("model", JsonValue.string "gpt-3.5-turbo-0301"),
          ("messages", JsonValue.messages [Msg.mk "user" "hi"]),
          ("max_tokens", JsonValue.number 512),
          ("temperature", JsonValue.float 0),
          ("top_p", JsonValue.number 1),
          ("frequency_penalty", JsonValue.number 0),
          ("presence_penalty", JsonValue.number 0)] := by decide
  ⟨hobj, ((C15_wire_omission ⟨"sk-1", "gpt-3.5-turbo-0301", 512, 0⟩ emptyMsgMap "bob" "hi"
    false _ hobj).1 rfl).1⟩

/-! ## The error behaviour of a call -/

/-- Under one configuration, a loop that is left with a nil `resErr` has seen an
envelope, so the key is not empty. -/
theorem loopResult_nil_err_key (cfg : Configuration) (net : Network) (msgMap : MsgMap)
    (uid msg : String) (fromAssistant : Bool)
    (h : (loopResult (ConfigReads.const cfg) net msgMap uid msg fromAssistant).resErr = none) :
    cfg.ApiKey ≠ "" := by
  intro hKey
  have ha := fun retry => attempt_no_key cfg net msgMap uid msg fromAssistant retry hKey
  rw [loopResult_unroll, (ha 1).1, (ha 2).1, (ha 3).1] at h
  simp [IsSuccess, outcomeErr] at h

/-- The body of `Completions` after the loop, on the state the loop is left in. -/
theorem Completions_eq_loopResult (cfgs : ConfigReads) (net : Network) (msgMap : MsgMap)
    (uid msg : String) (fromAssistant : Bool) :
    Completions cfgs net msgMap uid msg fromAssistant =
      match (loopResult cfgs net msgMap uid msg fromAssistant).resErr with
      | some resErr =>
        ⟨"", "", some resErr, (getRequest cfgs.build msgMap uid msg fromAssistant).2,
          (loopResult cfgs net msgMap uid msg fromAssistant).trace⟩
      | none =>
        if cfgs.extract.ApiKey = "" then
          ⟨"", "", some "api key required",
            (getRequest cfgs.build msgMap uid msg fromAssistant).2,
            (loopResult cfgs net msgMap uid msg fromAssistant).trace⟩
        else
          ⟨(extract cfgs.extract
              (loopResult cfgs net msgMap uid msg fromAssistant).gptResponseBody).1,
            (extract cfgs.extract
              (loopResult cfgs net msgMap uid msg fromAssistant).gptResponseBody).2,
            none, (getRequest cfgs.build msgMap uid msg fromAssistant).2,
            (loopResult cfgs net msgMap uid msg fromAssistant).trace⟩ := by
  rfl

/-- C16 (the second API-key guard is redundant).  With one configuration throughout the
call: control passes line 79 only with a nil `resErr`, and then the key is not empty, so
the test `cfg.ApiKey == ""` of line 86 is false whenever it is evaluated and the call
returns the extraction with a nil error; with an empty key the loop is left with the
error "api key required" of the transport, which line 80 returns. -/
theorem C16_second_guard_unreachable (cfg : Configuration) (net : Network) (msgMap : MsgMap)
    (uid msg : String) (fromAssistant : Bool) :
    ((loopResult (ConfigReads.const cfg) net msgMap uid msg fromAssistant).resErr = none →
        cfg.ApiKey ≠ ""
          ∧ Completions (ConfigReads.const cfg) net msgMap uid msg fromAssistant
            = ⟨(extract cfg
                  (loopResult (ConfigReads.const cfg) net msgMap uid msg
                    fromAssistant).gptResponseBody).1,
                (extract cfg
                  (loopResult (ConfigReads.const cfg) net msgMap uid msg
                    fromAssistant).gptResponseBody).2,
                none, (getRequest cfg msgMap uid msg fromAssistant).2,
                (loopResult (ConfigReads.const cfg) net msgMap uid msg fromAssistant).trace⟩)
      ∧ (cfg.ApiKey = "" →
        (loopResult (ConfigReads.const cfg) net msgMap uid msg fromAssistant).resErr
          = some "api key required") := by
  constructor
  · intro h
    have hk := loopResult_nil_err_key cfg net msgMap uid msg fromAssistant h
    refine ⟨hk, ?_⟩
    rw [Completions_eq_loopResult, h]
    simp only [ConfigReads.const]
    rw [if_neg hk]
  · intro hKey
    have ha := fun retry => attempt_no_key cfg net msgMap uid msg fromAssistant retry hKey
    rw [loopResult_unroll, (ha 1).1, (ha 2).1, (ha 3).1]
    simp [IsSuccess, outcomeErr]

/-- C16 where the first attempt answers: the loop is left with a nil `resErr` and the
key read by the guard is not empty. -/
theorem C16_second_guard_unreachable_witness :
    (loopResult (ConfigReads.const ⟨"sk-1", "gpt-3.5-turbo-0301", 512, 0⟩)
        (fun _ _ _ _ => .ok (envelopeWith "" [chatChoice "hello" "stop"]))
        emptyMsgMap "bob" "hi" false).resErr = none
    ∧ (Configuration.mk "sk-1" "gpt-3.5-turbo-0301" 512 0).ApiKey ≠ "" :=
  have h : (loopResult (ConfigReads.const ⟨"sk-1", "gpt-3.5-turbo-0301", 512, 0⟩)
      (fun _ _ _ _ => .ok (envelopeWith "" [chatChoice "hello" "stop"]))
      emptyMsgMap "bob" "hi" false).resErr = none := by
    rw [loopResult_unroll]
    simp [attempt, httpRequestCompletions, ConfigReads.const, IsSuccess, envelopeWith]
  ⟨h, ((C16_second_guard_unreachable ⟨"sk-1", "gpt-3.5-turbo-0301", 512, 0⟩
    (fun _ _ _ _ => .ok (envelopeWith "" [chatChoice "hello" "stop"]))
    emptyMsgMap "bob" "hi" false).1 h).1⟩

/-- C17 (exact error condition).  With one configuration throughout the call,
`Completions` returns a non-nil error if and only if attempt 3 is made and the transport
returns an error on it; attempt 3 is made exactly when attempts 1 and 2 do not succeed.
The error returned is then the one of attempt 3, with an empty reply and finish reason.
When attempt 3 is not made, or yields an envelope, the error is nil, whatever errors
attempts 1 and 2 returned. -/
theorem C17_error_condition (cfg : Configuration) (net : Network) (msgMap : MsgMap)
    (uid msg : String) (fromAssistant : Bool) :
    ((Completions (ConfigReads.const cfg) net msgMap uid msg fromAssistant).err ≠ none
        ↔ (3 ∈ calls (Completions (ConfigReads.const cfg) net msgMap uid msg fromAssistant).trace
            ∧ ∃ e, attempt (ConfigReads.const cfg) net msgMap uid msg fromAssistant 3
                = .error e))
      ∧ (3 ∈ calls (Completions (ConfigReads.const cfg) net msgMap uid msg fromAssistant).trace
        ↔ (¬ IsSuccess (attempt (ConfigReads.const cfg) net msgMap uid msg fromAssistant 1)
            ∧ ¬ IsSuccess (attempt (ConfigReads.const cfg) net msgMap uid msg fromAssistant 2)))
      ∧ (∀ e : String,
          3 ∈ calls (Completions (ConfigReads.const cfg) net msgMap uid msg fromAssistant).trace →
          attempt (ConfigReads.const cfg) net msgMap uid msg fromAssistant 3 = .error e →
          (Completions (ConfigReads.const cfg) net msgMap uid msg fromAssistant).err = some e
            ∧ (Completions (ConfigReads.const cfg) net msgMap uid msg fromAssistant).reply = ""
            ∧ (Completions (ConfigReads.const cfg) net msgMap uid msg fromAssistant).reason = "")
      ∧ (∀ env : ChatGPTResponseBody,
          attempt (ConfigReads.const cfg) net msgMap uid msg fromAssistant 3 = .ok env →
          (Completions (ConfigReads.const cfg) net msgMap uid msg fromAssistant).err = none)
      ∧ (3 ∉ calls (Completions (ConfigReads.const cfg) net msgMap uid msg fromAssistant).trace →
          (Completions (ConfigReads.const cfg) net msgMap uid msg fromAssistant).err = none) := by
  rw [Completions_const]
  by_cases h1 : IsSuccess (attempt (ConfigReads.const cfg) net msgMap uid msg fromAssistant 1)
  · simp [h1, calls_append, calls_cons_call, calls_cons_sleep, calls_nil, calls_attemptEvents]
  · by_cases h2 : IsSuccess (attempt (ConfigReads.const cfg) net msgMap uid msg fromAssistant 2)
    · simp [h1, h2, calls_append, calls_cons_call, calls_cons_sleep, calls_nil,
        calls_attemptEvents]
    · cases h3 : attempt (ConfigReads.const cfg) net msgMap uid msg fromAssistant 3 with
      | error e =>
        simp [h1, h2, calls_append, calls_cons_call, calls_cons_sleep, calls_nil,
          calls_attemptEvents]
      | ok env =>
        simp [h1, h2, calls_append, calls_cons_call, calls_cons_sleep, calls_nil,
          calls_attemptEvents]

/-! ## Isolation of users and stored roles -/

theorem getRequest_other (cfg : Configuration) (m : MsgMap) (U V msg : String)
    (fromAssistant : Bool) (hUV : V ≠ U) :
    (getRequest cfg m U msg fromAssistant).2 V = m V := by
  rw [getRequest_store]
  split
  · exact addMsg_other m U V _ hUV
  · rfl

/-- The request built for a user depends on the store only through that user's entry. -/
theorem getRequest_payload_congr (cfg : Configuration) (m m2 : MsgMap) (U msg : String)
    (fromAssistant : Bool) (h : m2 U = m U) :
    (getRequest cfg m2 U msg fromAssistant).1 = (getRequest cfg m U msg fromAssistant).1 := by
  have hl : lookup m2 U = lookup m U := by simp [lookup, h]
  by_cases hm : cfg.Model = "gpt-3.5-turbo-0301"
  · cases fromAssistant
    · rw [getRequest_chat_user cfg m2 U msg hm, getRequest_chat_user cfg m U msg hm]
      simp only [lookup_addMsg_same, hl]
    · rw [getRequest_chat_assistant cfg m2 U msg hm, getRequest_chat_assistant cfg m U msg hm]
      simp only [hl]
  · rw [getRequest_legacy cfg m2 U msg fromAssistant hm,
      getRequest_legacy cfg m U msg fromAssistant hm]

/-- C18 (per-user isolation).  For distinct user ids `U` and `V`: `addMsg`, `getRequest`
and `Completions` called for `U` leave the entry of `V` in the store as it was, and the
request built for `U` is the same for any two stores that hold the same entry for `U`,
in particular when only the history of `V` differs. -/
theorem C18_user_isolation (msgMap : MsgMap) (U V : String) (hUV : V ≠ U) :
    (∀ t : Msg, addMsg msgMap U t V = msgMap V)
      ∧ (∀ (cfg : Configuration) (msg : String) (fromAssistant : Bool),
          (getRequest cfg msgMap U msg fromAssistant).2 V = msgMap V)
      ∧ (∀ (cfgs : ConfigReads) (net : Network) (msg : String) (fromAssistant : Bool),
          (Completions cfgs net msgMap U msg fromAssistant).msgMap V = msgMap V)
      ∧ (∀ (cfg : Configuration) (msg : String) (fromAssistant : Bool) (msgMap2 : MsgMap),
          msgMap2 U = msgMap U →
          (getRequest cfg msgMap2 U msg fromAssistant).1
            = (getRequest cfg msgMap U msg fromAssistant).1)
      ∧ (∀ (cfg : Configuration) (msg : String) (fromAssistant : Bool) (history : List Msg),
          (getRequest cfg (assign msgMap V history) U msg fromAssistant).1.Messages
            = (getRequest cfg msgMap U msg fromAssistant).1.Messages) := by
  refine ⟨fun t => addMsg_other msgMap U V t hUV,
    fun cfg msg fa => getRequest_other cfg msgMap U V msg fa hUV, ?_,
    fun cfg msg fa m2 h => getRequest_payload_congr cfg msgMap m2 U msg fa h, ?_⟩
  · intro cfgs net msg fa
    rw [Completions_store]
    exact getRequest_other cfgs.build msgMap U V msg fa hUV
  · intro cfg msg fa history
    have hU : assign msgMap V history U = msgMap U := by
      have hne : U ≠ V := fun h => hUV h.symm
      simp [assign, hne]
    rw [getRequest_payload_congr cfg msgMap (assign msgMap V history) U msg fa hU]

/-- C18 for a user-origin chat request of `bob` while `carol` has a stored turn. -/
theorem C18_user_isolation_witness :
    (getRequest ⟨"sk-1", "gpt-3.5-turbo-0301", 512, 0⟩
        (assign emptyMsgMap "carol" [Msg.mk "user" "secret"]) "bob" "hi" false).2 "carol"
      = some [Msg.mk "user" "secret"]
    ∧ (getRequest ⟨"sk-1", "gpt-3.5-turbo-0301", 512, 0⟩
        (assign emptyMsgMap "carol" [Msg.mk "user" "secret"]) "bob" "hi" false).1.Messages
      = [Msg.mk "user" "hi"] := by
  have h := C18_user_isolation emptyMsgMap "bob" "carol" (by decide)
  have h5 := h.2.2.2.2 ⟨"sk-1", "gpt-3.5-turbo-0301", 512, 0⟩ "hi" false
    [Msg.mk "user" "secret"]
  have h2 := (C18_user_isolation (assign emptyMsgMap "carol" [Msg.mk "user" "secret"])
    "bob" "carol" (by decide)).2.1 ⟨"sk-1", "gpt-3.5-turbo-0301", 512, 0⟩ "hi" false
  refine ⟨?_, ?_⟩
  · rw [h2]
    rfl
  · rw [h5]
    rfl

theorem OnlyUserTurns_addMsg (m : MsgMap) (uid msg : String) (h : OnlyUserTurns m) :
    OnlyUserTurns (addMsg m uid (Msg.mk "user" msg)) := by
  intro v t ht
  by_cases hv : v = uid
  · subst hv
    rw [lookup_addMsg_same] at ht
    have hmem : t ∈ lookup m v ++ [Msg.mk "user" msg] := by
      split at ht
      · exact List.mem_of_mem_drop ht
      · exact ht
    rcases List.mem_append.mp hmem with h1 | h1
    · exact h v t h1
    · rw [List.mem_singleton.mp h1]
  · rw [lookup_addMsg_other m uid v _ hv] at ht
    exact h v t ht

theorem OnlyUserTurns_getRequest (cfg : Configuration) (m : MsgMap) (uid msg : String)
    (fromAssistant : Bool) (h : OnlyUserTurns m) :
    OnlyUserTurns (getRequest cfg m uid msg fromAssistant).2 := by
  rw [getRequest_store]
  split
  · exact OnlyUserTurns_addMsg m uid msg h
  · exact h

theorem OnlyUserTurns_of_reachable (m : MsgMap) (hm : ReachableByCalls m) :
    OnlyUserTurns m := by
  induction hm with
  | init => intro v t ht; simp [lookup, emptyMsgMap] at ht
  | getRequest cfg m uid msg fa _ ih => exact OnlyUserTurns_getRequest cfg m uid msg fa ih
  | completions cfgs net m uid msg fa _ ih =>
    rw [Completions_store]
    exact OnlyUserTurns_getRequest cfgs.build m uid msg fa ih

/-- C19 (only user turns are persisted).  In every store reachable from the empty one
by calls of `getRequest` and `Completions`, every stored turn has the role `user`.
Hence in a request built on such a store every turn but the last has the role `user`,
and a turn with the role `assistant` occurs only at the last index and only when
`fromAssistant` is true. -/
theorem C19_only_user_turns (msgMap : MsgMap) (hm : ReachableByCalls msgMap) :
    OnlyUserTurns msgMap
      ∧ (∀ (cfg : Configuration) (uid msg : String) (fromAssistant : Bool),
          (∀ t ∈ ((getRequest cfg msgMap uid msg fromAssistant).1.Messages).dropLast,
              t.Role = "user")
            ∧ (∀ (i : Nat) (t : Msg),
                (getRequest cfg msgMap uid msg fromAssistant).1.Messages[i]? = some t →
                t.Role = "assistant" →
                fromAssistant = true
                  ∧ i + 1 = (getRequest cfg msgMap uid msg fromAssistant).1.Messages.length)) := by
  have hU := OnlyUserTurns_of_reachable msgMap hm
  refine ⟨hU, ?_⟩
  intro cfg uid msg fa
  by_cases hmodel : cfg.Model = "gpt-3.5-turbo-0301"
  · cases fa
    · have hU2 := OnlyUserTurns_addMsg msgMap uid msg hU
      rw [getRequest_chat_user cfg msgMap uid msg hmodel]
      constructor
      · intro t ht
        exact hU2 uid t (List.mem_of_mem_dropLast ht)
      · intro i t hi hrole
        have hmem : t ∈ lookup (addMsg msgMap uid (Msg.mk "user" msg)) uid :=
          List.getElem?_mem hi
        have := hU2 uid t hmem
        rw [this] at hrole
        exact absurd hrole (by decide)
    · rw [getRequest_chat_assistant cfg msgMap uid msg hmodel]
      constructor
      · intro t ht
        simp only [List.dropLast_concat] at ht
        exact hU uid t ht
      · intro i t hi hrole
        refine ⟨rfl, ?_⟩
        simp only [List.length_append, List.length_singleton]
        by_cases hlt : i < (lookup msgMap uid).length
        · simp only [] at hi
          rw [List.getElem?_append_left hlt] at hi
          have := hU uid t (List.getElem?_mem hi)
          rw [this] at hrole
          exact absurd hrole (by decide)
        · have hlen : i < (lookup msgMap uid ++ [Msg.mk "assistant" msg]).length := by
            by_contra hge
            have hnone : (lookup msgMap uid ++ [Msg.mk "assistant" msg])[i]? = none :=
              List.getElem?_eq_none (by omega)
            simp only [] at hi
            rw [hnone] at hi
            cases hi
          simp only [List.length_append, List.length_singleton] at hlen
          omega
  · rw [getRequest_legacy cfg msgMap uid msg fa hmodel]
    constructor
    · intro t ht
      simp at ht
    · intro i t hi
      simp at hi

/-- C19 on the store left by a user-origin and then an assistant-origin chat call. -/
theorem C19_only_user_turns_witness :
    OnlyUserTurns
      (getRequest ⟨"sk-1", "gpt-3.5-turbo-0301", 512, 0⟩
        (getRequest ⟨"sk-1", "gpt-3.5-turbo-0301", 512, 0⟩ emptyMsgMap "bob" "hi" false).2
        "bob" "hello, bob" true).2
    ∧ lookup
        (getRequest ⟨"sk-1", "gpt-3.5-turbo-0301", 512, 0⟩
          (getRequest ⟨"sk-1", "gpt-3.5-turbo-0301", 512, 0⟩ emptyMsgMap "bob" "hi" false).2
          "bob" "hello, bob" true).2 "bob"
      = [Msg.mk "user" "hi"] :=
  ⟨(C19_only_user_turns _
      (ReachableByCalls.getRequest ⟨"sk-1", "gpt-3.5-turbo-0301", 512, 0⟩ _ "bob"
        "hello, bob" true
        (ReachableByCalls.getRequest ⟨"sk-1", "gpt-3.5-turbo-0301", 512, 0⟩ emptyMsgMap "bob"
          "hi" false ReachableByCalls.init))).1,
    by decide⟩

end Gpt
